import Mathlib

/-!
# Loudmouth: TLS session (lm-ssl-gnutls.c) and asynchronous resolver (lm-asyncns-resolver.c)

A shallow embedding of the two C modules.  Calls into GnuTLS, libasyncns, GLib and
the file system are represented by their observed outcomes (return codes, handles),
passed in as data, and every call that acquires, releases or reports something is
appended to a call log carried by the object it acts on.
-/

namespace Loudmouth

/-! ## Constants of the GnuTLS headers used by lm-ssl-gnutls.c -/

/-- GNUTLS_E_AGAIN of gnutls.h. -/
def GNUTLS_E_AGAIN : Int := -28

/-- GNUTLS_E_INTERRUPTED of gnutls.h. -/
def GNUTLS_E_INTERRUPTED : Int := -52

/-- GNUTLS_E_NO_CERTIFICATE_FOUND of gnutls.h. -/
def GNUTLS_E_NO_CERTIFICATE_FOUND : Int := -49

/-- GNUTLS_CERT_INVALID of gnutls.h (bit 1 of the verification status). -/
def GNUTLS_CERT_INVALID : Nat := 2

/-- GNUTLS_CERT_REVOKED of gnutls.h (bit 5 of the verification status). -/
def GNUTLS_CERT_REVOKED : Nat := 32

/-- GNUTLS_CRT_X509 of gnutls.h. -/
def GNUTLS_CRT_X509 : Int := 1

/-! ## Types of lm-ssl.h and lm-ssl-base.h -/

/-- Modelled from the spec: the LmSSLStatus enumeration of lm-ssl.h, which is not among
the sources; one constructor for each LM_SSL_STATUS_ constant that lm-ssl-gnutls.c
passes to the callback (the anomaly kinds of section 4.5). -/
inductive LmSSLStatus where
  | NO_CERT_FOUND
  | UNTRUSTED_CERT
  | CERT_EXPIRED
  | CERT_NOT_ACTIVATED
  | CERT_HOSTNAME_MISMATCH
  | CERT_FINGERPRINT_MISMATCH
  | GENERIC_ERROR
  deriving DecidableEq, Repr

/-- Modelled from the spec: the LmSSLResponse enumeration of lm-ssl.h, which is not among
the sources; the callback answers continue or abort, and the code only ever compares
the answer with LM_SSL_RESPONSE_CONTINUE. -/
inductive LmSSLResponse where
  | CONTINUE
  | STOP
  deriving DecidableEq, Repr

/-- Calls into GnuTLS that acquire, configure or release a resource, in the order made. -/
inductive GnutlsCall where
  | global_init
  | certificate_allocate_credentials
  | init
  | priority_set_direct (priorities : String)
  | certificate_set_x509_trust_file (path : String) (entry : Option String)
  | certificate_set_x509_system_trust
  | credentials_set
  | transport_set_ptr (fd : Int)
  | handshake
  | deinit
  | certificate_free_credentials
  | global_deinit
  deriving DecidableEq, Repr

/-- The fields of LmSSLBase (lm-ssl-base.h) that lm-ssl-gnutls.c reads or writes.  The
callback func receives the user data and the anomaly and yields its answer together
with the user data it leaves behind. -/
structure LmSSLBase (σ : Type) where
  func : σ → LmSSLStatus → LmSSLResponse × σ
  func_data : σ
  cipher_list : Option String
  ca_path : Option String
  expected_fingerprint : Option (List Nat)
  fingerprint : List Nat

/-- The struct _LmSSL.  The session and credential handles are represented by the log of
calls made on them; delivered records every callback invocation with its answer. -/
structure LmSSL (σ : Type) where
  base : LmSSLBase σ
  started : Bool
  calls : List GnutlsCall
  delivered : List (LmSSLStatus × LmSSLResponse)

/-- What the GnuTLS queries made by ssl_verify_certificate return for the peer. -/
structure PeerChecks where
  /-- return code of gnutls_certificate_verify_peers2 -/
  rc : Int
  /-- status word written by gnutls_certificate_verify_peers2 -/
  status : Nat
  /-- gnutls_certificate_expiration_time_peers -/
  expiration_time : Int
  /-- time (0) read for the expiration test -/
  now_expiration : Int
  /-- gnutls_certificate_activation_time_peers -/
  activation_time : Int
  /-- time (0) read for the activation test -/
  now_activation : Int
  /-- gnutls_certificate_type_get -/
  cert_type : Int
  /-- whether gnutls_certificate_get_peers returned NULL -/
  cert_list_null : Bool
  /-- return code of gnutls_x509_crt_import -/
  import_rc : Int
  /-- gnutls_x509_crt_check_hostname for a server name: non-zero on a match -/
  check_hostname : String → Int
  /-- return code of gnutls_fingerprint -/
  fingerprint_rc : Int
  /-- digest bytes written by gnutls_fingerprint -/
  digest : List Nat

/-- Modelled from the spec: _lm_ssl_base_set_fingerprint of lm-ssl-base.c, which is not
among the sources; it records the computed digest of the leaf certificate in the base. -/
def _lm_ssl_base_set_fingerprint {σ : Type} (base : LmSSLBase σ) (digest : List Nat) :
    LmSSLBase σ :=
  { base with fingerprint := digest }

/-- Modelled from the spec: _lm_ssl_base_check_fingerprint of lm-ssl-base.c, which is not
among the sources; non-zero exactly when a pinned fingerprint was supplied and it does
not byte-for-byte equal the computed digest. -/
def _lm_ssl_base_check_fingerprint {σ : Type} (base : LmSSLBase σ) : Int :=
  match base.expected_fingerprint with
  | none => 0
  | some expected => if expected = base.fingerprint then 0 else 1

/-! ## ssl_verify_certificate -/

/-- The call base->func (ssl, status, base->func_data): the answer, and the session with
the user data the callback left and the invocation recorded. -/
def base_func {σ : Type} (ssl : LmSSL σ) (status : LmSSLStatus) : LmSSLResponse × LmSSL σ :=
  let r := ssl.base.func ssl.base.func_data status
  (r.1, { ssl with base := { ssl.base with func_data := r.2 },
                   delivered := ssl.delivered ++ [(status, r.1)] })

/-- The statement pattern of ssl_verify_certificate: when cond holds the callback is given
status, and an answer other than LM_SSL_RESPONSE_CONTINUE makes the function return FALSE.
The first component is false when the function returns FALSE at this statement. -/
def report {σ : Type} (cond : Bool) (status : LmSSLStatus) (ssl : LmSSL σ) : Bool × LmSSL σ :=
  if cond then
    let r := base_func ssl status
    (decide (r.1 = LmSSLResponse.CONTINUE), r.2)
  else
    (true, ssl)

/-- Sequencing of statements with early return: when the statement before returned FALSE
the function has returned, otherwise the rest runs on the state it left. -/
def andThen {σ : Type} (x : Bool × LmSSL σ) (k : LmSSL σ → Bool × LmSSL σ) : Bool × LmSSL σ :=
  if x.1 then k x.2 else (false, x.2)

/-- The chain verification step of ssl_verify_certificate (lines 62-86): the three
statements that test rc, the return code of gnutls_certificate_verify_peers2. -/
def verify_peers_step {σ : Type} (ssl : LmSSL σ) (p : PeerChecks) : Bool × LmSSL σ :=
  andThen (report (decide (p.rc = GNUTLS_E_NO_CERTIFICATE_FOUND)) .NO_CERT_FOUND ssl) fun ssl =>
  andThen (report (decide (p.rc ≠ 0)) .GENERIC_ERROR ssl) fun ssl =>
  report (decide (p.rc = GNUTLS_E_NO_CERTIFICATE_FOUND)) .NO_CERT_FOUND ssl

/-- The fingerprint step of ssl_verify_certificate (lines 145-163): when gnutls_fingerprint
succeeds the digest is stored and compared with the pinned one, otherwise the callback
is given LM_SSL_STATUS_GENERIC_ERROR. -/
def fingerprint_step {σ : Type} (ssl : LmSSL σ) (p : PeerChecks) : Bool × LmSSL σ :=
  if p.fingerprint_rc ≥ 0 then
    let ssl := { ssl with base := _lm_ssl_base_set_fingerprint ssl.base p.digest }
    report (decide (_lm_ssl_base_check_fingerprint ssl.base ≠ 0))
      .CERT_FINGERPRINT_MISMATCH ssl
  else
    report true .GENERIC_ERROR ssl

/-- The X.509 block of ssl_verify_certificate (lines 110-164). -/
def x509_step {σ : Type} (ssl : LmSSL σ) (server : String) (p : PeerChecks) :
    Bool × LmSSL σ :=
  andThen (report p.cert_list_null .NO_CERT_FOUND ssl) fun ssl =>
  andThen (report (decide (p.import_rc ≠ 0)) .NO_CERT_FOUND ssl) fun ssl =>
  andThen (report (decide (p.check_hostname server = 0)) .CERT_HOSTNAME_MISMATCH ssl)
    fun ssl =>
  fingerprint_step ssl p

/-- The function ssl_verify_certificate (lm-ssl-gnutls.c, lines 50-167): TRUE to accept the
peer, FALSE to reject it. -/
def ssl_verify_certificate {σ : Type} (ssl : LmSSL σ) (server : String) (p : PeerChecks) :
    Bool × LmSSL σ :=
  andThen (verify_peers_step ssl p) fun ssl =>
  andThen (report (decide (Nat.land p.status GNUTLS_CERT_INVALID ≠ 0)
                    || decide (Nat.land p.status GNUTLS_CERT_REVOKED ≠ 0))
            .UNTRUSTED_CERT ssl) fun ssl =>
  andThen (report (decide (p.expiration_time < p.now_expiration)) .CERT_EXPIRED ssl) fun ssl =>
  andThen (report (decide (p.activation_time > p.now_activation)) .CERT_NOT_ACTIVATED ssl)
    fun ssl =>
  if p.cert_type = GNUTLS_CRT_X509 then
    x509_step ssl server p
  else
    (true, ssl)

/-! ## _lm_ssl_new, the session set-up and _lm_ssl_set_ca -/

/-- The function _lm_ssl_new: g_new0 zeroes the struct, so the session is not started, and
the base receives the pinned fingerprint and the callback with its user data. -/
def _lm_ssl_new {σ : Type} (expected_fingerprint : Option (List Nat))
    (ssl_function : σ → LmSSLStatus → LmSSLResponse × σ) (user_data : σ) : LmSSL σ :=
  { base := { func := ssl_function, func_data := user_data, cipher_list := none,
              ca_path := none, expected_fingerprint := expected_fingerprint,
              fingerprint := [] },
    started := false, calls := [], delivered := [] }

/-- Appends one GnuTLS call to the log of the session. -/
def gnutls {σ : Type} (ssl : LmSSL σ) (c : GnutlsCall) : LmSSL σ :=
  { ssl with calls := ssl.calls ++ [c] }

/-- The function _lm_ssl_initialize: global init, then the credentials are allocated. -/
def _lm_ssl_initialize {σ : Type} (ssl : LmSSL σ) : LmSSL σ :=
  gnutls (gnutls ssl .global_init) .certificate_allocate_credentials

/-- One entry returned by readdir, with what stat reports for the path built from it and
what gnutls_certificate_set_x509_trust_file returns when given that path. -/
structure DirEntry where
  d_name : String
  /-- return code of stat (path, &file) -/
  stat_rc : Int
  /-- S_ISREG (file.st_mode) -/
  is_reg : Bool
  /-- return code of gnutls_certificate_set_x509_trust_file: the number of
  certificates processed, or a negative error code -/
  load_rc : Int

/-- What the file system shows at ca_path. -/
inductive CaTarget where
  /-- stat (ca_path) fails -/
  | missing
  /-- a directory; opendir yields its entries, or NULL (none) -/
  | dir (opened : Option (List DirEntry))
  /-- a regular file, with the return code of loading it as a trust file -/
  | reg (load_rc : Int)
  /-- anything else -/
  | other

/-- The readdir loop of _lm_ssl_set_ca; worked is worked_at_least_once. -/
def set_ca_readdir {σ : Type} (ca_path : String) :
    List DirEntry → LmSSL σ → Bool → Bool × LmSSL σ
  | [], ssl, worked => (worked, ssl)
  | entry :: rest, ssl, worked =>
    if entry.stat_rc = 0 ∧ entry.is_reg = true then
      let ssl := gnutls ssl (.certificate_set_x509_trust_file ca_path (some entry.d_name))
      let success := entry.load_rc
      set_ca_readdir ca_path rest ssl (if success > 0 then true else worked)
    else
      set_ca_readdir ca_path rest ssl worked

/-- The function _lm_ssl_set_ca (lm-ssl-gnutls.c, lines 195-259). -/
def _lm_ssl_set_ca {σ : Type} (ssl : LmSSL σ) (ca_path : String) (target : CaTarget) :
    Bool × LmSSL σ :=
  match target with
  | .missing => (false, ssl)
  | .dir none => (false, ssl)
  | .dir (some entries) =>
    let r := set_ca_readdir ca_path entries ssl false
    if r.1 = false then (false, r.2) else (true, r.2)
  | .reg load_rc =>
    let ssl := gnutls ssl (.certificate_set_x509_trust_file ca_path none)
    if load_rc < 0 then (false, ssl) else (true, ssl)
  | .other => (true, ssl)

/-! ## _lm_ssl_begin, _lm_ssl_read, _lm_ssl_close -/

/-- The two messages _lm_ssl_begin puts into the GError. -/
inductive BeginErrmsg where
  | authentication_error
  | handshake_failed
  deriving DecidableEq, Repr

/-- What _lm_ssl_begin leaves: its return value, the error it set (message and the
handshake code it formats) and the session. -/
structure BeginResult (σ : Type) where
  ok : Bool
  error : Option (BeginErrmsg × Int)
  ssl : LmSSL σ

/-- The loop that calls gnutls_handshake while it returns GNUTLS_E_AGAIN, run against
the return codes of the successive gnutls_handshake calls.  It yields the first code
that is not GNUTLS_E_AGAIN; none when every code supplied was GNUTLS_E_AGAIN, that
is when the loop is still spinning. -/
def handshake_loop {σ : Type} : List Int → LmSSL σ → Option (Int × LmSSL σ)
  | [], _ => none
  | ret :: rest, ssl =>
    let ssl := gnutls ssl .handshake
    if GNUTLS_E_AGAIN = ret then handshake_loop rest ssl else some (ret, ssl)

/-- The set-up part of _lm_ssl_begin (lines 269-285): session init, priorities, trust
anchors, credentials and transport.  The result of _lm_ssl_set_ca is not looked at. -/
def begin_setup {σ : Type} (ssl : LmSSL σ) (fd : Int) (target : CaTarget) : LmSSL σ :=
  let ssl := gnutls ssl .init
  let ssl := match ssl.base.cipher_list with
    | some cipher_list => gnutls ssl (.priority_set_direct cipher_list)
    | none => gnutls ssl (.priority_set_direct "NORMAL")
  let ssl := match ssl.base.ca_path with
    | some ca_path => (_lm_ssl_set_ca ssl ca_path target).2
    | none => gnutls ssl .certificate_set_x509_system_trust
  let ssl := gnutls ssl .credentials_set
  gnutls ssl (.transport_set_ptr fd)

/-- The function _lm_ssl_begin (lm-ssl-gnutls.c, lines 261-322).  target is what the file
system shows at base->ca_path, handshakes the return codes of the successive
gnutls_handshake calls, p the outcome of the peer queries of the verification.  The
result is none when the handshake loop is still spinning after the codes supplied. -/
def _lm_ssl_begin {σ : Type} (ssl : LmSSL σ) (fd : Int) (server : String)
    (target : CaTarget) (handshakes : List Int) (p : PeerChecks) : Option (BeginResult σ) :=
  let ssl := begin_setup ssl fd target
  match handshake_loop handshakes ssl with
  | none => none
  | some (ret, ssl) =>
    let v := if ret ≥ 0 then ssl_verify_certificate ssl server p else (true, ssl)
    let auth_ok := v.1
    let ssl := v.2
    if ret < 0 ∨ auth_ok = false then
      let errmsg := if auth_ok = false then BeginErrmsg.authentication_error
                    else BeginErrmsg.handshake_failed
      some { ok := false, error := some (errmsg, ret), ssl := ssl }
    else
      some { ok := true, error := none, ssl := { ssl with started := true } }

/-- The GIOStatus enumeration of GLib. -/
inductive GIOStatus where
  | ERROR
  | NORMAL
  | EOF
  | AGAIN
  deriving DecidableEq, Repr

/-- The function _lm_ssl_read (lm-ssl-gnutls.c, lines 324-347); b_read is what
gnutls_record_recv returned, the second component is what is left in bytes_read
(the cast to guint is the reduction modulo 2^32). -/
def _lm_ssl_read (b_read : Int) : GIOStatus × Nat :=
  let bytes_read : Nat := 0
  if b_read = GNUTLS_E_AGAIN then
    (.AGAIN, bytes_read)
  else if b_read = 0 then
    (.EOF, bytes_read)
  else if b_read < 0 then
    (.ERROR, bytes_read)
  else
    (.NORMAL, (b_read % 2 ^ 32).toNat)

/-- The function _lm_ssl_close (lm-ssl-gnutls.c, lines 369-378). -/
def _lm_ssl_close {σ : Type} (ssl : LmSSL σ) : LmSSL σ :=
  if ssl.started = false then
    ssl
  else
    let ssl := gnutls ssl .deinit
    let ssl := gnutls ssl .certificate_free_credentials
    gnutls ssl .global_deinit

/-! ## The asynchronous resolver (lm-asyncns-resolver.c) -/

/-- The struct LmAsyncnsResolverPrivate; a pointer is a handle, NULL is none. -/
structure LmAsyncnsResolverPrivate where
  watch_resolv : Option Nat
  resolv_query : Option Nat
  asyncns_ctx : Option Nat
  resolv_channel : Option Nat
  deriving DecidableEq, Repr

/-- Modelled from the spec: the LmResolverResult enumeration of lm-resolver.h, which is not
among the sources; the three LM_RESOLVER_RESULT_ constants the resolver reports. -/
inductive LmResolverResult where
  | OK
  | FAILED
  | CANCELLED
  deriving DecidableEq, Repr

/-- Modelled from the spec: the LmResolverType enumeration of lm-resolver.h, which is not
among the sources; a request is for a host or for a service. -/
inductive LmResolverType where
  | HOST
  | SRV
  deriving DecidableEq, Repr

/-- The completion handler stored as user data of a query by asyncns_setuserdata. -/
inductive LmAsyncnsResolverCallback where
  | asyncns_resolver_done
  | asyncns_resolver_srv_done
  deriving DecidableEq, Repr

/-- Calls the resolver makes that acquire or release a resource, submit or cancel a query,
or report a result, in the order made. -/
inductive ResolverCall where
  | asyncns_new
  | g_io_channel_unix_new
  | lm_misc_add_io_watch
  | asyncns_getaddrinfo (host : Option String)
  | asyncns_res_query (srv : String)
  | asyncns_setuserdata (func : LmAsyncnsResolverCallback)
  | asyncns_cancel (ctx : Nat) (query : Nat)
  | g_io_channel_unref (channel : Nat)
  | g_source_destroy (watch : Nat)
  | asyncns_free (ctx : Nat)
  | _lm_resolver_set_result (result : LmResolverResult) (results : Option (List String))
  deriving DecidableEq, Repr

/-- The resolver object: the private struct, the properties read and written through
g_object_get and g_object_set, and the log of calls. -/
structure LmResolver where
  priv : LmAsyncnsResolverPrivate
  type : LmResolverType
  host : Option String
  port : Nat
  domain : String
  service : String
  protocol : String
  calls : List ResolverCall
  deriving DecidableEq, Repr

/-- What the backend and GLib hand out when asked: the context of asyncns_new (none when
it cannot be created), the channel, the watch and the query handle. -/
structure Backend where
  ctx : Option Nat
  channel : Option Nat
  watch : Option Nat
  query : Option Nat
  deriving DecidableEq, Repr

/-- Appends one call to the log of the resolver. -/
def called (resolver : LmResolver) (c : ResolverCall) : LmResolver :=
  { resolver with calls := resolver.calls ++ [c] }

/-- Modelled from the spec: _lm_resolver_set_result of lm-resolver.c, which is not among the
sources; the result channel of the resolver, here the record of the delivery. -/
def _lm_resolver_set_result (resolver : LmResolver) (result : LmResolverResult)
    (results : Option (List String)) : LmResolver :=
  called resolver (._lm_resolver_set_result result results)

/-- Modelled from the spec: _lm_resolver_create_srv_string of lm-resolver.c, which is not
among the sources; the SRV query name is _service._protocol.domain. -/
def _lm_resolver_create_srv_string (domain service protocol : String) : String :=
  "_" ++ service ++ "._" ++ protocol ++ "." ++ domain

/-- The function asyncns_resolver_cleanup (lines 85-106). -/
def asyncns_resolver_cleanup (resolver : LmResolver) : LmResolver :=
  let resolver := match resolver.priv.resolv_channel with
    | some channel =>
      { called resolver (.g_io_channel_unref channel) with
        priv := { resolver.priv with resolv_channel := none } }
    | none => resolver
  let resolver := match resolver.priv.watch_resolv with
    | some watch =>
      { called resolver (.g_source_destroy watch) with
        priv := { resolver.priv with watch_resolv := none } }
    | none => resolver
  let resolver := match resolver.priv.asyncns_ctx with
    | some ctx =>
      { called resolver (.asyncns_free ctx) with
        priv := { resolver.priv with asyncns_ctx := none } }
    | none => resolver
  { resolver with priv := { resolver.priv with resolv_query := none } }

/-- The function asyncns_resolver_done (lines 108-134); err and ans are what
asyncns_getaddrinfo_done returned. -/
def asyncns_resolver_done (resolver : LmResolver) (err : Int) (ans : Option (List String)) :
    LmResolver :=
  let resolver := { resolver with priv := { resolver.priv with resolv_query := none } }
  let resolver :=
    if err ≠ 0 then _lm_resolver_set_result resolver .FAILED none
    else _lm_resolver_set_result resolver .OK ans
  asyncns_resolver_cleanup resolver

/-- The error codes of lm-error.h that the two modules set. -/
inductive LmError where
  | LM_ERROR_CONNECTION_FAILED
  | LM_ERROR_CONNECTION_OPEN
  deriving DecidableEq, Repr

/-- The function asyncns_resolver_prep (lines 157-189): whether it succeeded, the error it
hands to g_set_error, and the resolver. -/
def asyncns_resolver_prep (resolver : LmResolver) (b : Backend) :
    Bool × Option LmError × LmResolver :=
  if resolver.priv.asyncns_ctx.isSome then
    (true, none, resolver)
  else
    let resolver := { called resolver .asyncns_new with
                      priv := { resolver.priv with asyncns_ctx := b.ctx } }
    if resolver.priv.asyncns_ctx = none then
      (false, some .LM_ERROR_CONNECTION_FAILED, resolver)
    else
      let resolver := { called resolver .g_io_channel_unix_new with
                        priv := { resolver.priv with resolv_channel := b.channel } }
      let resolver := { called resolver .lm_misc_add_io_watch with
                        priv := { resolver.priv with watch_resolv := b.watch } }
      (true, none, resolver)

/-- The function asyncns_resolver_lookup_host (lines 191-222). -/
def asyncns_resolver_lookup_host (resolver : LmResolver) (b : Backend) : LmResolver :=
  let host := resolver.host
  let r := asyncns_resolver_prep resolver b
  if r.1 = false then
    r.2.2
  else
    let resolver := r.2.2
    let resolver := { called resolver (.asyncns_getaddrinfo host) with
                      priv := { resolver.priv with resolv_query := b.query } }
    called resolver (.asyncns_setuserdata .asyncns_resolver_done)

/-- The function asyncns_resolver_srv_done (lines 224-277); srv_len and srv_ans are what
asyncns_res_done returned, and parse_srv_response stands for
_lm_resolver_parse_srv_response of lm-resolver.c, which is not among the sources:
the server and port it extracts, none when it returns FALSE. -/
def asyncns_resolver_srv_done (resolver : LmResolver) (srv_len : Int) (srv_ans : List Nat)
    (parse_srv_response : List Nat → Int → Option (String × Nat)) : LmResolver :=
  let resolver := { resolver with priv := { resolver.priv with resolv_query := none } }
  let r : Bool × LmResolver :=
    if srv_len ≤ 0 then
      (false, resolver)
    else
      match parse_srv_response srv_ans srv_len with
      | some (new_server, new_port) =>
        (true, { resolver with host := some new_server, port := new_port })
      | none => (false, resolver)
  let result := r.1
  let resolver := asyncns_resolver_cleanup r.2
  if result = true then
    _lm_resolver_set_result resolver .OK none
  else
    _lm_resolver_set_result resolver .FAILED none

/-- The function asyncns_resolver_lookup_service (lines 279-322). -/
def asyncns_resolver_lookup_service (resolver : LmResolver) (b : Backend) : LmResolver :=
  let srv := _lm_resolver_create_srv_string resolver.domain resolver.service resolver.protocol
  let r := asyncns_resolver_prep resolver b
  if r.1 = false then
    r.2.2
  else
    let resolver := r.2.2
    let resolver := { called resolver (.asyncns_res_query srv) with
                      priv := { resolver.priv with resolv_query := b.query } }
    called resolver (.asyncns_setuserdata .asyncns_resolver_srv_done)

/-- The function asyncns_resolver_lookup (lines 324-344). -/
def asyncns_resolver_lookup (resolver : LmResolver) (b : Backend) : LmResolver :=
  match resolver.type with
  | .HOST => asyncns_resolver_lookup_host resolver b
  | .SRV => asyncns_resolver_lookup_service resolver b

/-- The function asyncns_resolver_cancel (lines 346-365). -/
def asyncns_resolver_cancel (resolver : LmResolver) : LmResolver :=
  match resolver.priv.asyncns_ctx with
  | some ctx =>
    let resolver := match resolver.priv.resolv_query with
      | some query =>
        { called resolver (.asyncns_cancel ctx query) with
          priv := { resolver.priv with resolv_query := none } }
      | none => resolver
    _lm_resolver_set_result resolver .CANCELLED none
  | none => resolver

/-! ## Predicates on the record of callback invocations -/

/-- Every recorded invocation was answered LM_SSL_RESPONSE_CONTINUE. -/
def AllContinue (l : List (LmSSLStatus × LmSSLResponse)) : Prop :=
  ∀ y ∈ l, y.2 = LmSSLResponse.CONTINUE

/-- The last recorded invocation was answered otherwise, all before it with
LM_SSL_RESPONSE_CONTINUE. -/
def StopsLast (l : List (LmSSLStatus × LmSSLResponse)) : Prop :=
  ∃ pre x, l = pre ++ [x] ∧ x.2 ≠ LmSSLResponse.CONTINUE ∧ AllContinue pre

/-- The parts of the session that the verifier leaves alone. -/
def Frame {σ : Type} (s t : LmSSL σ) : Prop :=
  t.started = s.started ∧ t.calls = s.calls ∧ t.base.func = s.base.func ∧
    t.base.expected_fingerprint = s.base.expected_fingerprint ∧
    t.base.cipher_list = s.base.cipher_list ∧ t.base.ca_path = s.base.ca_path

/-- What a run of statements of the verifier from ssl does: it extends the record by
invocations whose anomalies satisfy P, and it either falls through with every one of
them answered LM_SSL_RESPONSE_CONTINUE or returns FALSE right after the first other
answer. -/
def StepSpec {σ : Type} (P : LmSSLStatus → Prop) (ssl : LmSSL σ) (out : Bool × LmSSL σ) :
    Prop :=
  Frame ssl out.2 ∧
  ∃ ext, out.2.delivered = ssl.delivered ++ ext ∧ (∀ y ∈ ext, P y.1) ∧
    ((out.1 = true ∧ AllContinue ext) ∨ (out.1 = false ∧ StopsLast ext))

/-- A point of the verifier reached from the session s0 with an empty record: all
invocations so far were answered LM_SSL_RESPONSE_CONTINUE and their anomalies
satisfy P. -/
def Reached {σ : Type} (P : LmSSLStatus → Prop) (s0 s : LmSSL σ) : Prop :=
  Frame s0 s ∧ AllContinue s.delivered ∧ ∀ y ∈ s.delivered, P y.1

/-- The verifier returned FALSE at an anomaly satisfying P, every invocation before it
having been answered LM_SSL_RESPONSE_CONTINUE on an anomaly satisfying P. -/
def StoppedAt {σ : Type} (P : LmSSLStatus → Prop) (out : Bool × LmSSL σ) : Prop :=
  out.1 = false ∧ ∃ pre y, out.2.delivered = pre ++ [y] ∧ P y.1 ∧
    y.2 ≠ LmSSLResponse.CONTINUE ∧ AllContinue pre ∧ ∀ z ∈ pre, P z.1

/-- The anomalies ssl_verify_certificate can deliver before it tests the expiration time:
those of the chain verification step and of the status flags. -/
def BeforeExpiration (a : LmSSLStatus) : Prop :=
  a = LmSSLStatus.NO_CERT_FOUND ∨ a = LmSSLStatus.GENERIC_ERROR ∨
    a = LmSSLStatus.UNTRUSTED_CERT

/-- The outcome of the verifier for a peer whose certificate has expired: the anomaly
LM_SSL_STATUS_CERT_EXPIRED is delivered, or the verifier returned FALSE at an
anomaly delivered before the expiration test. -/
def ExpiredOutcome {σ : Type} (out : Bool × LmSSL σ) : Prop :=
  (∃ pre r post, out.2.delivered = pre ++ (LmSSLStatus.CERT_EXPIRED, r) :: post ∧
    AllContinue pre ∧ ∀ z ∈ pre, BeforeExpiration z.1) ∨
  StoppedAt BeforeExpiration out

/-- The outcome of the verifier for an X.509 peer whose digest differs from the pinned
fingerprint: LM_SSL_STATUS_CERT_FINGERPRINT_MISMATCH is the last anomaly delivered
and the result is TRUE exactly when it was answered LM_SSL_RESPONSE_CONTINUE, or the
verifier returned FALSE at another anomaly, delivered before. -/
def MismatchOutcome {σ : Type} (out : Bool × LmSSL σ) : Prop :=
  (∃ pre r, out.2.delivered = pre ++ [(LmSSLStatus.CERT_FINGERPRINT_MISMATCH, r)] ∧
    out.1 = decide (r = LmSSLResponse.CONTINUE) ∧
    AllContinue pre ∧ ∀ z ∈ pre, z.1 ≠ LmSSLStatus.CERT_FINGERPRINT_MISMATCH) ∨
  StoppedAt (fun a => a ≠ LmSSLStatus.CERT_FINGERPRINT_MISMATCH) out

/-- The three teardown calls of _lm_ssl_close. -/
def IsRelease (c : GnutlsCall) : Prop :=
  c = GnutlsCall.deinit ∨ c = GnutlsCall.certificate_free_credentials ∨
    c = GnutlsCall.global_deinit

/-! ## Concrete inputs -/

/-- A callback that answers LM_SSL_RESPONSE_STOP to every anomaly. -/
def stop_always : Unit → LmSSLStatus → LmSSLResponse × Unit :=
  fun u _ => (LmSSLResponse.STOP, u)

/-- A callback that answers LM_SSL_RESPONSE_CONTINUE to every anomaly. -/
def continue_always : Unit → LmSSLStatus → LmSSLResponse × Unit :=
  fun u _ => (LmSSLResponse.CONTINUE, u)

/-- An X.509 peer that passes every check at time 1000. -/
def good_peer : PeerChecks :=
  { rc := 0, status := 0, expiration_time := 2000, now_expiration := 1000,
    activation_time := 500, now_activation := 1000, cert_type := GNUTLS_CRT_X509,
    cert_list_null := false, import_rc := 0, check_hostname := fun _ => 1,
    fingerprint_rc := 0, digest := [1, 2, 3] }

/-- A peer whose certificate expired at time 500 and whose chain verification failed
with a code other than GNUTLS_E_NO_CERTIFICATE_FOUND. -/
def expired_unverified_peer : PeerChecks :=
  { good_peer with rc := -43, expiration_time := 500 }

/-- A peer whose certificate expired at time 500 and is otherwise in order. -/
def expired_peer : PeerChecks :=
  { good_peer with expiration_time := 500 }

/-- A peer that presented no certificate: the chain verification returns
GNUTLS_E_NO_CERTIFICATE_FOUND. -/
def no_certificate_peer : PeerChecks :=
  { good_peer with rc := GNUTLS_E_NO_CERTIFICATE_FOUND }

/-- A session created, initialized, and begun over descriptor 3 with a handshake that
succeeds at once and a peer that passes every check. -/
def begun_session : Option (BeginResult Unit) :=
  _lm_ssl_begin ( _lm_ssl_initialize (_lm_ssl_new none continue_always ())) 3 "example.org"
    CaTarget.other [0] good_peer

/-- A directory entry for a regular file with the given name and load result. -/
def regular_entry (name : String) (load_rc : Int) : DirEntry :=
  { d_name := name, stat_rc := 0, is_reg := true, load_rc := load_rc }

/-- A resolver for the host example.org on which nothing has been done yet. -/
def fresh_host_resolver : LmResolver :=
  { priv := { watch_resolv := none, resolv_query := none, asyncns_ctx := none,
              resolv_channel := none },
    type := LmResolverType.HOST, host := some "example.org", port := 5222,
    domain := "example.org", service := "xmpp-client", protocol := "tcp", calls := [] }

/-- A resolver for the service xmpp-client over tcp of example.org on which nothing has
been done yet. -/
def fresh_srv_resolver : LmResolver :=
  { fresh_host_resolver with type := LmResolverType.SRV, host := none }

/-- A backend that hands out the context 10, the channel 11, the watch 12, the query 13. -/
def working_backend : Backend :=
  { ctx := some 10, channel := some 11, watch := some 12, query := some 13 }

/-- A backend whose context cannot be created. -/
def failing_backend : Backend :=
  { ctx := none, channel := none, watch := none, query := none }

/-- The host resolver after a lookup against the working backend: a query is outstanding. -/
def queried_host_resolver : LmResolver :=
  asyncns_resolver_lookup fresh_host_resolver working_backend

/-- The service resolver after a lookup against the working backend. -/
def queried_srv_resolver : LmResolver :=
  asyncns_resolver_lookup fresh_srv_resolver working_backend

/-- The release calls asyncns_resolver_cleanup makes for the handles held in priv. -/
def cleanup_calls (priv : LmAsyncnsResolverPrivate) : List ResolverCall :=
  (priv.resolv_channel.toList.map ResolverCall.g_io_channel_unref) ++
  (priv.watch_resolv.toList.map ResolverCall.g_source_destroy) ++
  (priv.asyncns_ctx.toList.map ResolverCall.asyncns_free)

/-! ## Lemmas on ssl_verify_certificate -/

theorem allContinue_nil : AllContinue [] := by
  intro y hy; cases hy

theorem allContinue_append {l m : List (LmSSLStatus × LmSSLResponse)}
    (hl : AllContinue l) (hm : AllContinue m) : AllContinue (l ++ m) := by
  intro y hy
  rcases List.mem_append.mp hy with h | h
  · exact hl y h
  · exact hm y h

theorem stopsLast_not_allContinue {l : List (LmSSLStatus × LmSSLResponse)}
    (h : StopsLast l) : ¬ AllContinue l := by
  rcases h with ⟨pre, x, rfl, hx, _⟩
  intro hall
  exact hx (hall x (by simp))

theorem frame_refl {σ : Type} (s : LmSSL σ) : Frame s s :=
  ⟨rfl, rfl, rfl, rfl, rfl, rfl⟩

theorem frame_trans {σ : Type} {s t u : LmSSL σ} (h1 : Frame s t) (h2 : Frame t u) :
    Frame s u := by
  rcases h1 with ⟨a1, a2, a3, a4, a5, a6⟩
  rcases h2 with ⟨b1, b2, b3, b4, b5, b6⟩
  exact ⟨b1.trans a1, b2.trans a2, b3.trans a3, b4.trans a4, b5.trans a5, b6.trans a6⟩

theorem report_spec {σ : Type} (P : LmSSLStatus → Prop) (c : Bool) (a : LmSSLStatus)
    (ssl : LmSSL σ) (ha : P a) : StepSpec P ssl (report c a ssl) := by
  cases c with
  | false =>
    exact ⟨frame_refl ssl, [], by simp [report], by simp,
      Or.inl ⟨by simp [report], allContinue_nil⟩⟩
  | true =>
    refine ⟨⟨rfl, rfl, rfl, rfl, rfl, rfl⟩,
      [(a, (ssl.base.func ssl.base.func_data a).1)], by simp [report, base_func], ?_, ?_⟩
    · intro y hy
      simp at hy
      subst hy
      exact ha
    · by_cases hr : (ssl.base.func ssl.base.func_data a).1 = LmSSLResponse.CONTINUE
      · left
        refine ⟨by simp [report, base_func, hr], ?_⟩
        intro y hy
        simp at hy
        subst hy
        exact hr
      · right
        exact ⟨by simp [report, base_func, hr], [], _, rfl, hr, allContinue_nil⟩

theorem andThen_spec {σ : Type} (P : LmSSLStatus → Prop) (ssl : LmSSL σ)
    (x : Bool × LmSSL σ) (k : LmSSL σ → Bool × LmSSL σ)
    (hx : StepSpec P ssl x) (hk : ∀ s, StepSpec P s (k s)) :
    StepSpec P ssl (andThen x k) := by
  rcases hx with ⟨hf1, e1, hd1, hp1, h1⟩
  rcases h1 with ⟨hres, hall⟩ | ⟨hres, hstop⟩
  · rcases hk x.2 with ⟨hf2, e2, hd2, hp2, h2⟩
    have hand : andThen x k = k x.2 := by simp [andThen, hres]
    rw [hand]
    refine ⟨frame_trans hf1 hf2, e1 ++ e2, ?_, ?_, ?_⟩
    · rw [hd2, hd1, List.append_assoc]
    · intro y hy
      rcases List.mem_append.mp hy with h | h
      · exact hp1 y h
      · exact hp2 y h
    · rcases h2 with ⟨hr2, ha2⟩ | ⟨hr2, pre, z, he, hz, hpre⟩
      · exact Or.inl ⟨hr2, allContinue_append hall ha2⟩
      · refine Or.inr ⟨hr2, e1 ++ pre, z, ?_, hz, allContinue_append hall hpre⟩
        rw [he, List.append_assoc]
  · have hand : andThen x k = (false, x.2) := by simp [andThen, hres]
    rw [hand]
    exact ⟨hf1, e1, hd1, hp1, Or.inr ⟨rfl, hstop⟩⟩

theorem verify_peers_step_spec {σ : Type} (P : LmSSLStatus → Prop) (ssl : LmSSL σ)
    (p : PeerChecks) (h1 : P .NO_CERT_FOUND) (h2 : P .GENERIC_ERROR) :
    StepSpec P ssl (verify_peers_step ssl p) := by
  unfold verify_peers_step
  refine andThen_spec _ _ _ _ (report_spec _ _ _ _ h1) fun s => ?_
  refine andThen_spec _ _ _ _ (report_spec _ _ _ _ h2) fun s => ?_
  exact report_spec _ _ _ _ h1

theorem fingerprint_step_spec {σ : Type} (P : LmSSLStatus → Prop) (ssl : LmSSL σ)
    (p : PeerChecks) (h1 : P .CERT_FINGERPRINT_MISMATCH) (h2 : P .GENERIC_ERROR) :
    StepSpec P ssl (fingerprint_step ssl p) := by
  unfold fingerprint_step
  split
  · have h := report_spec P
      (decide (_lm_ssl_base_check_fingerprint
        (_lm_ssl_base_set_fingerprint ssl.base p.digest) ≠ 0))
      LmSSLStatus.CERT_FINGERPRINT_MISMATCH
      { ssl with base := _lm_ssl_base_set_fingerprint ssl.base p.digest } h1
    exact ⟨frame_trans ⟨rfl, rfl, rfl, rfl, rfl, rfl⟩ h.1, h.2⟩
  · exact report_spec _ _ _ _ h2

theorem x509_step_spec {σ : Type} (ssl : LmSSL σ) (server : String) (p : PeerChecks) :
    StepSpec (fun _ => True) ssl (x509_step ssl server p) := by
  unfold x509_step
  refine andThen_spec _ _ _ _ (report_spec _ _ _ _ trivial) fun s => ?_
  refine andThen_spec _ _ _ _ (report_spec _ _ _ _ trivial) fun s => ?_
  refine andThen_spec _ _ _ _ (report_spec _ _ _ _ trivial) fun s => ?_
  exact fingerprint_step_spec _ _ _ trivial trivial

theorem ssl_verify_certificate_spec {σ : Type} (ssl : LmSSL σ) (server : String)
    (p : PeerChecks) :
    StepSpec (fun _ => True) ssl (ssl_verify_certificate ssl server p) := by
  unfold ssl_verify_certificate
  refine andThen_spec _ _ _ _ (verify_peers_step_spec _ _ _ trivial trivial) fun s => ?_
  refine andThen_spec _ _ _ _ (report_spec _ _ _ _ trivial) fun s => ?_
  refine andThen_spec _ _ _ _ (report_spec _ _ _ _ trivial) fun s => ?_
  refine andThen_spec _ _ _ _ (report_spec _ _ _ _ trivial) fun s => ?_
  split
  · exact x509_step_spec _ _ _
  · exact ⟨frame_refl s, [], by simp, by simp, Or.inl ⟨rfl, allContinue_nil⟩⟩

/-- Passing one statement on the way to a later one: either the verifier returned FALSE
there, or the later point is reached. -/
theorem pass_step {σ : Type} (P : LmSSLStatus → Prop) (Q : Bool × LmSSL σ → Prop)
    (s0 s : LmSSL σ) (x : Bool × LmSSL σ) (k : LmSSL σ → Bool × LmSSL σ)
    (hs : Reached P s0 s) (hx : StepSpec P s x)
    (hstop : ∀ out, StoppedAt P out → Q out)
    (hk : ∀ t, Reached P s0 t → Q (k t)) : Q (andThen x k) := by
  rcases hs with ⟨hf0, hall0, hp0⟩
  rcases hx with ⟨hf1, e1, hd1, hp1, h1⟩
  rcases h1 with ⟨hres, hall⟩ | ⟨hres, pre, y, he, hy, hpre⟩
  · have hand : andThen x k = k x.2 := by simp [andThen, hres]
    rw [hand]
    refine hk x.2 ⟨frame_trans hf0 hf1, ?_, ?_⟩
    · rw [hd1]; exact allContinue_append hall0 hall
    · intro z hz
      rw [hd1] at hz
      rcases List.mem_append.mp hz with h | h
      · exact hp0 z h
      · exact hp1 z h
  · have hand : andThen x k = (false, x.2) := by simp [andThen, hres]
    rw [hand]
    refine hstop _ ⟨rfl, s.delivered ++ pre, y, ?_, ?_, hy, allContinue_append hall0 hpre, ?_⟩
    · show x.2.delivered = _
      rw [hd1, he, List.append_assoc]
    · exact hp1 y (by rw [he]; simp)
    · intro z hz
      rcases List.mem_append.mp hz with h | h
      · exact hp0 z h
      · exact hp1 z (by rw [he]; simp [h])

theorem reached_start {σ : Type} (P : LmSSLStatus → Prop) (ssl : LmSSL σ) :
    Reached P { ssl with delivered := [] } { ssl with delivered := [] } :=
  ⟨frame_refl _, allContinue_nil, by intro y hy; cases hy⟩

theorem report_true_fst {σ : Type} (a : LmSSLStatus) (t : LmSSL σ) :
    (report true a t).1 = decide ((t.base.func t.base.func_data a).1 = LmSSLResponse.CONTINUE) := by
  simp [report, base_func]

theorem report_true_delivered {σ : Type} (a : LmSSLStatus) (t : LmSSL σ) :
    (report true a t).2.delivered
      = t.delivered ++ [(a, (t.base.func t.base.func_data a).1)] := by
  simp [report, base_func]

/-- When the expiration time is in the past, the verifier either delivers
LM_SSL_STATUS_CERT_EXPIRED or has returned FALSE at an earlier anomaly. -/
theorem expired_delivered_or_stopped {σ : Type} (ssl : LmSSL σ) (server : String)
    (p : PeerChecks) (h : p.expiration_time < p.now_expiration) :
    ExpiredOutcome (ssl_verify_certificate { ssl with delivered := [] } server p) := by
  unfold ssl_verify_certificate
  refine pass_step BeforeExpiration ExpiredOutcome _ _ _ _ (reached_start _ ssl)
    (verify_peers_step_spec _ _ _ (Or.inl rfl) (Or.inr (Or.inl rfl)))
    (fun out ho => Or.inr ho) fun t ht => ?_
  refine pass_step BeforeExpiration ExpiredOutcome _ _ _ _ ht
    (report_spec _ _ _ _ (Or.inr (Or.inr rfl)))
    (fun out ho => Or.inr ho) fun t ht => ?_
  have hc : decide (p.expiration_time < p.now_expiration) = true := by simp [h]
  rw [hc]
  left
  by_cases hr : (report true LmSSLStatus.CERT_EXPIRED t).1 = true
  · have hand : ∀ k : LmSSL σ → Bool × LmSSL σ,
        andThen (report true LmSSLStatus.CERT_EXPIRED t) k
          = k (report true LmSSLStatus.CERT_EXPIRED t).2 := by
      intro k; simp [andThen, hr]
    rw [hand]
    have htail : ∀ u : LmSSL σ, StepSpec (fun _ => True) u
        (andThen (report (decide (p.activation_time > p.now_activation))
            LmSSLStatus.CERT_NOT_ACTIVATED u)
          fun ssl => if p.cert_type = GNUTLS_CRT_X509 then x509_step ssl server p
            else (true, ssl)) := by
      intro u
      refine andThen_spec _ _ _ _ (report_spec _ _ _ _ trivial) fun s => ?_
      split
      · exact x509_step_spec _ _ _
      · exact ⟨frame_refl s, [], by simp, by simp, Or.inl ⟨rfl, allContinue_nil⟩⟩
    rcases htail (report true LmSSLStatus.CERT_EXPIRED t).2 with ⟨_, ext, hd, _, _⟩
    refine ⟨t.delivered, (t.base.func t.base.func_data LmSSLStatus.CERT_EXPIRED).1, ext,
      ?_, ht.2.1, ht.2.2⟩
    rw [hd, report_true_delivered, List.append_assoc]
    rfl
  · have hand : ∀ k : LmSSL σ → Bool × LmSSL σ,
        andThen (report true LmSSLStatus.CERT_EXPIRED t) k
          = (false, (report true LmSSLStatus.CERT_EXPIRED t).2) := by
      intro k; simp [andThen, hr]
    rw [hand]
    exact ⟨t.delivered, (t.base.func t.base.func_data LmSSLStatus.CERT_EXPIRED).1, [],
      report_true_delivered _ _, ht.2.1, ht.2.2⟩

/-- With a pinned fingerprint that differs from the computed digest of an X.509 peer, the
verifier either delivers LM_SSL_STATUS_CERT_FINGERPRINT_MISMATCH last and returns
according to the answer, or has returned FALSE at an earlier anomaly. -/
theorem mismatch_delivered_or_stopped {σ : Type} (ssl : LmSSL σ) (server : String)
    (p : PeerChecks) (expected : List Nat)
    (hx : p.cert_type = GNUTLS_CRT_X509) (hf : p.fingerprint_rc ≥ 0)
    (he : ssl.base.expected_fingerprint = some expected) (hne : expected ≠ p.digest) :
    MismatchOutcome (ssl_verify_certificate { ssl with delivered := [] } server p) := by
  unfold ssl_verify_certificate
  refine pass_step (fun a => a ≠ LmSSLStatus.CERT_FINGERPRINT_MISMATCH) MismatchOutcome _ _ _ _
    (reached_start _ ssl)
    (verify_peers_step_spec _ _ _ (by decide) (by decide))
    (fun out ho => Or.inr ho) fun t ht => ?_
  refine pass_step (fun a => a ≠ LmSSLStatus.CERT_FINGERPRINT_MISMATCH) MismatchOutcome _ _ _ _ ht
    (report_spec _ _ _ _ (by decide)) (fun out ho => Or.inr ho) fun t ht => ?_
  refine pass_step (fun a => a ≠ LmSSLStatus.CERT_FINGERPRINT_MISMATCH) MismatchOutcome _ _ _ _ ht
    (report_spec _ _ _ _ (by decide)) (fun out ho => Or.inr ho) fun t ht => ?_
  refine pass_step (fun a => a ≠ LmSSLStatus.CERT_FINGERPRINT_MISMATCH) MismatchOutcome _ _ _ _ ht
    (report_spec _ _ _ _ (by decide)) (fun out ho => Or.inr ho) fun t ht => ?_
  rw [if_pos hx]
  unfold x509_step
  refine pass_step (fun a => a ≠ LmSSLStatus.CERT_FINGERPRINT_MISMATCH) MismatchOutcome _ _ _ _ ht
    (report_spec _ _ _ _ (by decide)) (fun out ho => Or.inr ho) fun t ht => ?_
  refine pass_step (fun a => a ≠ LmSSLStatus.CERT_FINGERPRINT_MISMATCH) MismatchOutcome _ _ _ _ ht
    (report_spec _ _ _ _ (by decide)) (fun out ho => Or.inr ho) fun t ht => ?_
  refine pass_step (fun a => a ≠ LmSSLStatus.CERT_FINGERPRINT_MISMATCH) MismatchOutcome _ _ _ _ ht
    (report_spec _ _ _ _ (by decide)) (fun out ho => Or.inr ho) fun t ht => ?_
  have hexp : t.base.expected_fingerprint = some expected := by
    rw [ht.1.2.2.2.1]; exact he
  have hcheck : decide (_lm_ssl_base_check_fingerprint
      (_lm_ssl_base_set_fingerprint t.base p.digest) ≠ 0) = true := by
    simp [_lm_ssl_base_check_fingerprint, _lm_ssl_base_set_fingerprint, hexp, hne]
  unfold fingerprint_step
  rw [if_pos hf]
  simp only [hcheck]
  left
  exact ⟨t.delivered, _, report_true_delivered _ _, report_true_fst _ _, ht.2.1, ht.2.2⟩

/-! ## Claims on ssl_verify_certificate -/

/-- C1: started with an empty record of callback invocations, ssl_verify_certificate returns
FALSE exactly when some invocation was answered other than LM_SSL_RESPONSE_CONTINUE; in
that case this invocation is the last one recorded and all before it were answered
LM_SSL_RESPONSE_CONTINUE; and when every invocation was answered
LM_SSL_RESPONSE_CONTINUE the result is TRUE.  This holds for every outcome of the peer
queries and every callback. -/
theorem ssl_verify_certificate_reject_iff_last_answer_not_continue {σ : Type}
    (ssl : LmSSL σ) (server : String) (p : PeerChecks) :
    ((ssl_verify_certificate { ssl with delivered := [] } server p).1 = false ↔
      ∃ y ∈ (ssl_verify_certificate { ssl with delivered := [] } server p).2.delivered,
        y.2 ≠ LmSSLResponse.CONTINUE) ∧
    ((ssl_verify_certificate { ssl with delivered := [] } server p).1 = false →
      ∃ pre y, (ssl_verify_certificate { ssl with delivered := [] } server p).2.delivered
          = pre ++ [y] ∧ y.2 ≠ LmSSLResponse.CONTINUE ∧
        ∀ z ∈ pre, z.2 = LmSSLResponse.CONTINUE) ∧
    ((∀ y ∈ (ssl_verify_certificate { ssl with delivered := [] } server p).2.delivered,
        y.2 = LmSSLResponse.CONTINUE) →
      (ssl_verify_certificate { ssl with delivered := [] } server p).1 = true) := by
  rcases ssl_verify_certificate_spec { ssl with delivered := [] } server p with
    ⟨_, ext, hd, _, h⟩
  simp only [List.nil_append] at hd
  rw [hd]
  rcases h with ⟨hres, hall⟩ | ⟨hres, hstop⟩
  · refine ⟨?_, ?_, fun _ => hres⟩
    · rw [hres]
      constructor
      · intro h; cases h
      · rintro ⟨y, hy, hne⟩
        exact absurd (hall y hy) hne
    · rw [hres]; intro h; cases h
  · refine ⟨?_, fun _ => hstop, ?_⟩
    · constructor
      · intro _
        rcases hstop with ⟨pre, x, rfl, hx, _⟩
        exact ⟨x, by simp, hx⟩
      · intro _; exact hres
    · intro hall
      exact absurd hall (stopsLast_not_allContinue hstop)

/-- C2, as stated, fails: an X.509 peer whose digest [1, 2, 3] differs from the pinned
fingerprint [9, 9, 9] and whose certificate has expired, with a callback that answers
LM_SSL_RESPONSE_STOP; the verifier returns FALSE at LM_SSL_STATUS_CERT_EXPIRED and
LM_SSL_STATUS_CERT_FINGERPRINT_MISMATCH is never delivered. -/
theorem fingerprint_mismatch_not_delivered_after_stop :
    expired_peer.cert_type = GNUTLS_CRT_X509 ∧ expired_peer.fingerprint_rc ≥ 0 ∧
    (_lm_ssl_new (some [9, 9, 9]) stop_always ()).base.expected_fingerprint = some [9, 9, 9] ∧
    [9, 9, 9] ≠ expired_peer.digest ∧
    (ssl_verify_certificate (_lm_ssl_new (some [9, 9, 9]) stop_always ()) "example.org"
      expired_peer).2.delivered = [(LmSSLStatus.CERT_EXPIRED, LmSSLResponse.STOP)] ∧
    ∀ r, (LmSSLStatus.CERT_FINGERPRINT_MISMATCH, r) ∉
      (ssl_verify_certificate (_lm_ssl_new (some [9, 9, 9]) stop_always ()) "example.org"
        expired_peer).2.delivered := by
  have hd : (ssl_verify_certificate (_lm_ssl_new (some [9, 9, 9]) stop_always ())
      "example.org" expired_peer).2.delivered
      = [(LmSSLStatus.CERT_EXPIRED, LmSSLResponse.STOP)] := by decide
  refine ⟨by decide, by decide, rfl, by decide, hd, ?_⟩
  intro r
  rw [hd]
  simp

/-- C2, amended: for an X.509 peer whose digest is computed and differs from the supplied
pinned fingerprint, ssl_verify_certificate either delivers
LM_SSL_STATUS_CERT_FINGERPRINT_MISMATCH as its last anomaly, every anomaly before it
having been answered LM_SSL_RESPONSE_CONTINUE, and then returns TRUE exactly when the
callback answers LM_SSL_RESPONSE_CONTINUE to it; or it has returned FALSE at an
earlier anomaly that the callback did not answer with LM_SSL_RESPONSE_CONTINUE. -/
theorem ssl_verify_certificate_fingerprint_mismatch {σ : Type} (ssl : LmSSL σ)
    (server : String) (p : PeerChecks) (expected : List Nat)
    (hx : p.cert_type = GNUTLS_CRT_X509) (hf : p.fingerprint_rc ≥ 0)
    (he : ssl.base.expected_fingerprint = some expected) (hne : expected ≠ p.digest) :
    (∃ pre r, (ssl_verify_certificate { ssl with delivered := [] } server p).2.delivered
        = pre ++ [(LmSSLStatus.CERT_FINGERPRINT_MISMATCH, r)] ∧
      (ssl_verify_certificate { ssl with delivered := [] } server p).1
        = decide (r = LmSSLResponse.CONTINUE) ∧
      (∀ z ∈ pre, z.2 = LmSSLResponse.CONTINUE) ∧
      ∀ z ∈ pre, z.1 ≠ LmSSLStatus.CERT_FINGERPRINT_MISMATCH) ∨
    ((ssl_verify_certificate { ssl with delivered := [] } server p).1 = false ∧
      ∃ pre y, (ssl_verify_certificate { ssl with delivered := [] } server p).2.delivered
          = pre ++ [y] ∧
        y.1 ≠ LmSSLStatus.CERT_FINGERPRINT_MISMATCH ∧ y.2 ≠ LmSSLResponse.CONTINUE ∧
        (∀ z ∈ pre, z.2 = LmSSLResponse.CONTINUE) ∧
        ∀ z ∈ pre, z.1 ≠ LmSSLStatus.CERT_FINGERPRINT_MISMATCH) :=
  mismatch_delivered_or_stopped ssl server p expected hx hf he hne

/-- C2, amended, on the peer good_peer with the pinned fingerprint [9, 9, 9] and a callback
that answers LM_SSL_RESPONSE_CONTINUE. -/
theorem ssl_verify_certificate_fingerprint_mismatch_witness :
    (∃ pre r, (ssl_verify_certificate
          { _lm_ssl_new (some [9, 9, 9]) continue_always () with delivered := [] }
          "example.org" good_peer).2.delivered
        = pre ++ [(LmSSLStatus.CERT_FINGERPRINT_MISMATCH, r)] ∧
      (ssl_verify_certificate
          { _lm_ssl_new (some [9, 9, 9]) continue_always () with delivered := [] }
          "example.org" good_peer).1
        = decide (r = LmSSLResponse.CONTINUE) ∧
      (∀ z ∈ pre, z.2 = LmSSLResponse.CONTINUE) ∧
      ∀ z ∈ pre, z.1 ≠ LmSSLStatus.CERT_FINGERPRINT_MISMATCH) ∨
    ((ssl_verify_certificate
          { _lm_ssl_new (some [9, 9, 9]) continue_always () with delivered := [] }
          "example.org" good_peer).1 = false ∧
      ∃ pre y, (ssl_verify_certificate
            { _lm_ssl_new (some [9, 9, 9]) continue_always () with delivered := [] }
            "example.org" good_peer).2.delivered
          = pre ++ [y] ∧
        y.1 ≠ LmSSLStatus.CERT_FINGERPRINT_MISMATCH ∧ y.2 ≠ LmSSLResponse.CONTINUE ∧
        (∀ z ∈ pre, z.2 = LmSSLResponse.CONTINUE) ∧
        ∀ z ∈ pre, z.1 ≠ LmSSLStatus.CERT_FINGERPRINT_MISMATCH) :=
  ssl_verify_certificate_fingerprint_mismatch
    (_lm_ssl_new (some [9, 9, 9]) continue_always ()) "example.org" good_peer [9, 9, 9]
    (by decide) (by decide) rfl (by decide)

/-- C3, as stated, fails: a peer whose certificate has expired and whose chain verification
code is non-zero, with a callback that answers LM_SSL_RESPONSE_STOP; the verifier
returns FALSE at LM_SSL_STATUS_GENERIC_ERROR and LM_SSL_STATUS_CERT_EXPIRED is never
delivered. -/
theorem expired_not_delivered_after_stop :
    expired_unverified_peer.expiration_time < expired_unverified_peer.now_expiration ∧
    (ssl_verify_certificate (_lm_ssl_new none stop_always ()) "example.org"
      expired_unverified_peer).2.delivered
        = [(LmSSLStatus.GENERIC_ERROR, LmSSLResponse.STOP)] ∧
    ∀ r, (LmSSLStatus.CERT_EXPIRED, r) ∉
      (ssl_verify_certificate (_lm_ssl_new none stop_always ()) "example.org"
        expired_unverified_peer).2.delivered := by
  have hd : (ssl_verify_certificate (_lm_ssl_new none stop_always ()) "example.org"
      expired_unverified_peer).2.delivered
        = [(LmSSLStatus.GENERIC_ERROR, LmSSLResponse.STOP)] := by decide
  refine ⟨by decide, hd, ?_⟩
  intro r
  rw [hd]
  simp

/-- C3, amended: for a peer whose leaf certificate expiration time is in the past,
whatever the chain verification code and the status flags are, ssl_verify_certificate
either delivers LM_SSL_STATUS_CERT_EXPIRED, every anomaly before it being one of the
chain verification and status anomalies answered LM_SSL_RESPONSE_CONTINUE; or it
has returned FALSE at one of those earlier anomalies, which the callback did not
answer with LM_SSL_RESPONSE_CONTINUE. -/
theorem ssl_verify_certificate_expired {σ : Type} (ssl : LmSSL σ) (server : String)
    (p : PeerChecks) (h : p.expiration_time < p.now_expiration) :
    (∃ pre r post, (ssl_verify_certificate { ssl with delivered := [] } server p).2.delivered
        = pre ++ (LmSSLStatus.CERT_EXPIRED, r) :: post ∧
      (∀ z ∈ pre, z.2 = LmSSLResponse.CONTINUE) ∧ ∀ z ∈ pre, BeforeExpiration z.1) ∨
    ((ssl_verify_certificate { ssl with delivered := [] } server p).1 = false ∧
      ∃ pre y, (ssl_verify_certificate { ssl with delivered := [] } server p).2.delivered
          = pre ++ [y] ∧
        BeforeExpiration y.1 ∧ y.2 ≠ LmSSLResponse.CONTINUE ∧
        (∀ z ∈ pre, z.2 = LmSSLResponse.CONTINUE) ∧ ∀ z ∈ pre, BeforeExpiration z.1) :=
  expired_delivered_or_stopped ssl server p h

/-- C3, amended, on the peer expired_unverified_peer with a callback that answers
LM_SSL_RESPONSE_CONTINUE. -/
theorem ssl_verify_certificate_expired_witness :
    expired_unverified_peer.expiration_time < expired_unverified_peer.now_expiration ∧
    ((∃ pre r post, (ssl_verify_certificate
          { _lm_ssl_new none continue_always () with delivered := [] }
          "example.org" expired_unverified_peer).2.delivered
        = pre ++ (LmSSLStatus.CERT_EXPIRED, r) :: post ∧
      (∀ z ∈ pre, z.2 = LmSSLResponse.CONTINUE) ∧ ∀ z ∈ pre, BeforeExpiration z.1) ∨
    ((ssl_verify_certificate
          { _lm_ssl_new none continue_always () with delivered := [] }
          "example.org" expired_unverified_peer).1 = false ∧
      ∃ pre y, (ssl_verify_certificate
            { _lm_ssl_new none continue_always () with delivered := [] }
            "example.org" expired_unverified_peer).2.delivered
          = pre ++ [y] ∧
        BeforeExpiration y.1 ∧ y.2 ≠ LmSSLResponse.CONTINUE ∧
        (∀ z ∈ pre, z.2 = LmSSLResponse.CONTINUE) ∧ ∀ z ∈ pre, BeforeExpiration z.1)) :=
  ⟨by decide,
    ssl_verify_certificate_expired (_lm_ssl_new none continue_always ()) "example.org"
      expired_unverified_peer (by decide)⟩

/-! ## Lemmas on the session functions -/

theorem set_ca_readdir_frame {σ : Type} (ca_path : String) (entries : List DirEntry) :
    ∀ (ssl : LmSSL σ) (worked : Bool),
      (set_ca_readdir ca_path entries ssl worked).2.base = ssl.base ∧
      (set_ca_readdir ca_path entries ssl worked).2.started = ssl.started ∧
      (set_ca_readdir ca_path entries ssl worked).2.delivered = ssl.delivered := by
  induction entries with
  | nil => intro ssl worked; exact ⟨rfl, rfl, rfl⟩
  | cons e rest ih =>
    intro ssl worked
    unfold set_ca_readdir
    split
    · exact ih _ _
    · exact ih _ _

theorem set_ca_readdir_worked {σ : Type} (ca_path : String) (entries : List DirEntry) :
    ∀ (ssl : LmSSL σ) (worked : Bool),
      (set_ca_readdir ca_path entries ssl worked).1 = true ↔
        worked = true ∨ ∃ e ∈ entries, e.stat_rc = 0 ∧ e.is_reg = true ∧ e.load_rc > 0 := by
  induction entries with
  | nil => intro ssl worked; simp [set_ca_readdir]
  | cons e rest ih =>
    intro ssl worked
    unfold set_ca_readdir
    split
    · rename_i hreg
      rw [ih]
      by_cases hl : e.load_rc > 0
      · simp [hl, hreg]
      · simp [hl]
    · rename_i hreg
      rw [ih]
      constructor
      · rintro (h | ⟨x, hx, h⟩)
        · exact Or.inl h
        · exact Or.inr ⟨x, List.mem_cons_of_mem _ hx, h⟩
      · rintro (h | ⟨x, hx, h⟩)
        · exact Or.inl h
        · rcases List.mem_cons.mp hx with rfl | hx
          · exact absurd ⟨h.1, h.2.1⟩ hreg
          · exact Or.inr ⟨x, hx, h⟩

theorem set_ca_readdir_calls {σ : Type} (ca_path : String) (entries : List DirEntry) :
    ∀ (ssl : LmSSL σ) (worked : Bool),
      (set_ca_readdir ca_path entries ssl worked).2.calls = ssl.calls ++
        (entries.filter fun e => decide (e.stat_rc = 0 ∧ e.is_reg = true)).map
          fun e => GnutlsCall.certificate_set_x509_trust_file ca_path (some e.d_name) := by
  induction entries with
  | nil => intro ssl worked; simp [set_ca_readdir]
  | cons e rest ih =>
    intro ssl worked
    unfold set_ca_readdir
    split
    · rename_i hreg
      rw [ih]
      simp [gnutls, List.filter_cons, hreg]
    · rename_i hreg
      rw [ih]
      simp [List.filter_cons, hreg]

theorem lm_ssl_set_ca_frame {σ : Type} (ssl : LmSSL σ) (ca_path : String)
    (target : CaTarget) :
    (_lm_ssl_set_ca ssl ca_path target).2.base = ssl.base ∧
    (_lm_ssl_set_ca ssl ca_path target).2.started = ssl.started ∧
    (_lm_ssl_set_ca ssl ca_path target).2.delivered = ssl.delivered := by
  cases target with
  | missing => exact ⟨rfl, rfl, rfl⟩
  | dir opened =>
    cases opened with
    | none => exact ⟨rfl, rfl, rfl⟩
    | some entries =>
      have h := set_ca_readdir_frame ca_path entries ssl false
      unfold _lm_ssl_set_ca
      simp only
      split <;> exact h
  | reg load_rc =>
    unfold _lm_ssl_set_ca
    simp only
    split <;> exact ⟨rfl, rfl, rfl⟩
  | other => exact ⟨rfl, rfl, rfl⟩

theorem begin_setup_frame {σ : Type} (ssl : LmSSL σ) (fd : Int) (target : CaTarget) :
    (begin_setup ssl fd target).base = ssl.base ∧
    (begin_setup ssl fd target).started = ssl.started ∧
    (begin_setup ssl fd target).delivered = ssl.delivered := by
  unfold begin_setup
  simp only [gnutls]
  cases hc : ssl.base.cipher_list <;> cases hp : ssl.base.ca_path <;> simp only [] <;>
    first
      | exact ⟨trivial, trivial, trivial⟩
      | exact ⟨rfl, rfl, rfl⟩
      | exact lm_ssl_set_ca_frame _ _ _

theorem handshake_loop_returns {σ : Type} (ret : Int) (rest : List Int)
    (h : ret ≠ GNUTLS_E_AGAIN) (n : Nat) :
    ∀ ssl : LmSSL σ, ∃ s, handshake_loop (List.replicate n GNUTLS_E_AGAIN ++ ret :: rest) ssl
        = some (ret, s) ∧ s.base = ssl.base ∧ s.started = ssl.started ∧
      s.delivered = ssl.delivered ∧
      s.calls = ssl.calls ++ List.replicate (n + 1) GnutlsCall.handshake := by
  induction n with
  | zero =>
    intro ssl
    refine ⟨gnutls ssl .handshake, ?_, rfl, rfl, rfl, rfl⟩
    simp [handshake_loop, Ne.symm h]
  | succ n ih =>
    intro ssl
    rcases ih (gnutls ssl .handshake) with ⟨s, hs, hb, hst, hd, hc⟩
    refine ⟨s, ?_, hb, hst, hd, ?_⟩
    · simp only [List.replicate_succ, List.cons_append, handshake_loop, if_true]
      exact hs
    · rw [hc]
      simp [gnutls, List.replicate_succ]

theorem lm_ssl_close_started {σ : Type} (ssl : LmSSL σ) :
    (_lm_ssl_close ssl).started = ssl.started := by
  unfold _lm_ssl_close
  split <;> rfl

theorem lm_ssl_close_calls_of_started {σ : Type} (ssl : LmSSL σ) (h : ssl.started = true) :
    (_lm_ssl_close ssl).calls = ssl.calls ++
      [GnutlsCall.deinit, GnutlsCall.certificate_free_credentials,
        GnutlsCall.global_deinit] := by
  simp [_lm_ssl_close, h, gnutls]

/-! ## Claims on the session functions -/

/-- C4: on the session begun_session, on which _lm_ssl_begin succeeded, the first
_lm_ssl_close makes the three teardown calls and the second, made right after it,
makes the same three calls again: the teardown is performed twice, not once. -/
theorem lm_ssl_close_twice_tears_down_twice :
    ∃ r, begun_session = some r ∧ r.ok = true ∧ r.ssl.started = true ∧
      (_lm_ssl_close r.ssl).calls = r.ssl.calls ++
        [GnutlsCall.deinit, GnutlsCall.certificate_free_credentials,
          GnutlsCall.global_deinit] ∧
      (_lm_ssl_close (_lm_ssl_close r.ssl)).calls = r.ssl.calls ++
        [GnutlsCall.deinit, GnutlsCall.certificate_free_credentials,
          GnutlsCall.global_deinit,
          GnutlsCall.deinit, GnutlsCall.certificate_free_credentials,
          GnutlsCall.global_deinit] :=
  ⟨_, rfl, rfl, rfl, rfl, rfl⟩

/-- The outcome of _lm_ssl_begin by the sign of the final handshake code, as the tests
ret >= 0 and ret < 0 of lines 290 and 294 decide it: whatever number of GNUTLS_E_AGAIN
codes precede the final code ret, _lm_ssl_begin returns, and with s the session as
the handshake left it, it fails with the handshake error exactly when ret is negative
(the verification is then not run), with the authentication error exactly when ret is
not negative and ssl_verify_certificate returns FALSE on s, and succeeds, with started
set, exactly when ret is not negative and ssl_verify_certificate returns TRUE on s. -/
theorem lm_ssl_begin_outcome {σ : Type} (ssl : LmSSL σ) (fd : Int) (server : String)
    (target : CaTarget) (p : PeerChecks) (n : Nat) (ret : Int) (rest : List Int)
    (h : ret ≠ GNUTLS_E_AGAIN) :
    ∃ s r,
      handshake_loop (List.replicate n GNUTLS_E_AGAIN ++ ret :: rest)
        (begin_setup ssl fd target) = some (ret, s) ∧
      s.base = ssl.base ∧ s.delivered = ssl.delivered ∧
      _lm_ssl_begin ssl fd server target (List.replicate n GNUTLS_E_AGAIN ++ ret :: rest) p
        = some r ∧
      ((r.ok = false ∧ r.error = some (BeginErrmsg.handshake_failed, ret)) ↔ ret < 0) ∧
      (ret < 0 → r.ssl = s) ∧
      ((r.ok = false ∧ r.error = some (BeginErrmsg.authentication_error, ret)) ↔
        (0 ≤ ret ∧ (ssl_verify_certificate s server p).1 = false)) ∧
      ((r.ok = true ∧ r.error = none ∧ r.ssl.started = true) ↔
        (0 ≤ ret ∧ (ssl_verify_certificate s server p).1 = true)) ∧
      (r.ok = false → r.ssl.started = ssl.started) := by
  rcases handshake_loop_returns ret rest h n (begin_setup ssl fd target) with
    ⟨s, hs, hb, hst, hd, _⟩
  have hsetup := begin_setup_frame ssl fd target
  have hvf := (ssl_verify_certificate_spec s server p).1
  by_cases hneg : ret < 0
  · refine ⟨s, ⟨false, some (BeginErrmsg.handshake_failed, ret), s⟩, hs,
      hb.trans hsetup.1, hd.trans hsetup.2.2, ?_, ?_, fun _ => rfl, ?_, ?_, ?_⟩
    · have hge : ¬ ret ≥ 0 := by omega
      simp [_lm_ssl_begin, hs, hneg, hge]
    · simp [hneg]
    · constructor
      · rintro ⟨_, he⟩
        simp at he
      · rintro ⟨h0, _⟩
        omega
    · constructor
      · rintro ⟨hk, _⟩
        simp at hk
      · rintro ⟨h0, _⟩
        omega
    · intro _
      exact hst.trans hsetup.2.1
  · have hge : ret ≥ 0 := by omega
    by_cases hv : (ssl_verify_certificate s server p).1 = true
    · refine ⟨s, ⟨true, none, { (ssl_verify_certificate s server p).2 with started := true }⟩,
        hs, hb.trans hsetup.1, hd.trans hsetup.2.2, ?_, ?_, fun hn => absurd hn hneg,
        ?_, ?_, ?_⟩
      · simp [_lm_ssl_begin, hs, hneg, hge, hv]
      · simp [hneg]
      · simp [hv]
      · simp [hv, hge]
      · simp
    · have hv2 : (ssl_verify_certificate s server p).1 = false := by
        simpa using hv
      refine ⟨s, ⟨false, some (BeginErrmsg.authentication_error, ret),
          (ssl_verify_certificate s server p).2⟩,
        hs, hb.trans hsetup.1, hd.trans hsetup.2.2, ?_, ?_, fun hn => absurd hn hneg,
        ?_, ?_, ?_⟩
      · simp [_lm_ssl_begin, hs, hneg, hge, hv2]
      · simp [hneg]
      · simp [hv2, hge]
      · simp [hv2]
      · intro _
        exact hvf.1.trans (hst.trans hsetup.2.1)

/-- C8: gnutls_handshake returns GNUTLS_E_SUCCESS, which is 0, or a negative error code.
For every such final code ret, reached after any number of GNUTLS_E_AGAIN retries, and
every verifier outcome, _lm_ssl_begin returns, and with s the session as the handshake
left it (same base, same record of callback invocations as before the call): it fails
with the handshake error exactly when ret is non-zero, and then the verification is
not run (the session returned is s); it fails with the authentication error exactly
when ret is 0 and ssl_verify_certificate returns FALSE on s; it succeeds, with
started set, exactly when ret is 0 and ssl_verify_certificate returns TRUE on s; and
a failure leaves started as it was. -/
theorem lm_ssl_begin_result {σ : Type} (ssl : LmSSL σ) (fd : Int) (server : String)
    (target : CaTarget) (p : PeerChecks) (n : Nat) (ret : Int) (rest : List Int)
    (h : ret ≠ GNUTLS_E_AGAIN) (hret : ret ≤ 0) :
    ∃ s r,
      handshake_loop (List.replicate n GNUTLS_E_AGAIN ++ ret :: rest)
        (begin_setup ssl fd target) = some (ret, s) ∧
      s.base = ssl.base ∧ s.delivered = ssl.delivered ∧
      _lm_ssl_begin ssl fd server target (List.replicate n GNUTLS_E_AGAIN ++ ret :: rest) p
        = some r ∧
      ((r.ok = false ∧ r.error = some (BeginErrmsg.handshake_failed, ret)) ↔ ret ≠ 0) ∧
      (ret ≠ 0 → r.ssl = s) ∧
      ((r.ok = false ∧ r.error = some (BeginErrmsg.authentication_error, ret)) ↔
        (ret = 0 ∧ (ssl_verify_certificate s server p).1 = false)) ∧
      ((r.ok = true ∧ r.error = none ∧ r.ssl.started = true) ↔
        (ret = 0 ∧ (ssl_verify_certificate s server p).1 = true)) ∧
      (r.ok = false → r.ssl.started = ssl.started) := by
  rcases lm_ssl_begin_outcome ssl fd server target p n ret rest h with
    ⟨s, r, hl, hb, hd, hbeg, h1, h2, h3, h4, h5⟩
  refine ⟨s, r, hl, hb, hd, hbeg, ?_, ?_, ?_, ?_, h5⟩
  · rw [h1]
    constructor
    · intro hn; omega
    · intro hn; omega
  · intro hn
    exact h2 (by omega)
  · rw [h3]
    constructor
    · rintro ⟨h0, hv⟩
      exact ⟨by omega, hv⟩
    · rintro ⟨h0, hv⟩
      exact ⟨by omega, hv⟩
  · rw [h4]
    constructor
    · rintro ⟨h0, hv⟩
      exact ⟨by omega, hv⟩
    · rintro ⟨h0, hv⟩
      exact ⟨by omega, hv⟩

/-- C8 on a session over descriptor 3 whose handshake returns GNUTLS_E_AGAIN twice and
then 0, with a peer that passes every check. -/
theorem lm_ssl_begin_result_witness :
    ((0 : Int) ≠ GNUTLS_E_AGAIN ∧ (0 : Int) ≤ 0) ∧
    ∃ s r,
      handshake_loop (List.replicate 2 GNUTLS_E_AGAIN ++ 0 :: [])
        (begin_setup ( _lm_ssl_initialize (_lm_ssl_new none continue_always ())) 3
          CaTarget.other) = some (0, s) ∧
      s.base = ( _lm_ssl_initialize (_lm_ssl_new none continue_always ())).base ∧
      s.delivered = ( _lm_ssl_initialize (_lm_ssl_new none continue_always ())).delivered ∧
      _lm_ssl_begin ( _lm_ssl_initialize (_lm_ssl_new none continue_always ())) 3
          "example.org" CaTarget.other (List.replicate 2 GNUTLS_E_AGAIN ++ 0 :: []) good_peer
        = some r ∧
      ((r.ok = false ∧ r.error = some (BeginErrmsg.handshake_failed, 0)) ↔ (0 : Int) ≠ 0) ∧
      ((0 : Int) ≠ 0 → r.ssl = s) ∧
      ((r.ok = false ∧ r.error = some (BeginErrmsg.authentication_error, 0)) ↔
        ((0 : Int) = 0 ∧ (ssl_verify_certificate s "example.org" good_peer).1 = false)) ∧
      ((r.ok = true ∧ r.error = none ∧ r.ssl.started = true) ↔
        ((0 : Int) = 0 ∧ (ssl_verify_certificate s "example.org" good_peer).1 = true)) ∧
      (r.ok = false → r.ssl.started
        = ( _lm_ssl_initialize (_lm_ssl_new none continue_always ())).started) :=
  ⟨⟨by decide, by decide⟩,
    lm_ssl_begin_result ( _lm_ssl_initialize (_lm_ssl_new none continue_always ())) 3
      "example.org" CaTarget.other good_peer 2 0 [] (by decide) (by decide)⟩

/-- C9: for every value r of type gint returned by gnutls_record_recv, _lm_ssl_read
returns AGAIN exactly when r is GNUTLS_E_AGAIN, EOF exactly when r is 0, ERROR exactly
when r is negative and not GNUTLS_E_AGAIN, and NORMAL with bytes_read equal to r
exactly when r is positive; bytes_read is 0 whenever the status is not NORMAL, and
GNUTLS_E_AGAIN is never reported as ERROR. -/
theorem lm_ssl_read_status (r : Int) (hlo : -2 ^ 31 ≤ r) (hhi : r < 2 ^ 31) :
    ((_lm_ssl_read r).1 = GIOStatus.AGAIN ↔ r = GNUTLS_E_AGAIN) ∧
    ((_lm_ssl_read r).1 = GIOStatus.EOF ↔ r = 0) ∧
    ((_lm_ssl_read r).1 = GIOStatus.ERROR ↔ (r < 0 ∧ r ≠ GNUTLS_E_AGAIN)) ∧
    (((_lm_ssl_read r).1 = GIOStatus.NORMAL ∧ ((_lm_ssl_read r).2 : Int) = r) ↔ 0 < r) ∧
    ((_lm_ssl_read r).1 ≠ GIOStatus.NORMAL → (_lm_ssl_read r).2 = 0) ∧
    (r = GNUTLS_E_AGAIN → (_lm_ssl_read r).1 ≠ GIOStatus.ERROR) := by
  unfold _lm_ssl_read GNUTLS_E_AGAIN
  by_cases h1 : r = -28
  · subst h1
    simp
  · by_cases h2 : r = 0
    · subst h2
      simp
    · by_cases h3 : r < 0
      · simp [h1, h2, h3]
        omega
      · have hpos : 0 < r := by omega
        have hmod : r % 2 ^ 32 = r := Int.emod_eq_of_lt (by omega) (by omega)
        simp [h1, h2, h3, hmod, hpos]
        omega

/-- C9 on the return value 5. -/
theorem lm_ssl_read_status_witness :
    ((_lm_ssl_read 5).1 = GIOStatus.AGAIN ↔ (5 : Int) = GNUTLS_E_AGAIN) ∧
    ((_lm_ssl_read 5).1 = GIOStatus.EOF ↔ (5 : Int) = 0) ∧
    ((_lm_ssl_read 5).1 = GIOStatus.ERROR ↔ ((5 : Int) < 0 ∧ (5 : Int) ≠ GNUTLS_E_AGAIN)) ∧
    (((_lm_ssl_read 5).1 = GIOStatus.NORMAL ∧ ((_lm_ssl_read 5).2 : Int) = 5) ↔
      (0 : Int) < 5) ∧
    ((_lm_ssl_read 5).1 ≠ GIOStatus.NORMAL → (_lm_ssl_read 5).2 = 0) ∧
    ((5 : Int) = GNUTLS_E_AGAIN → (_lm_ssl_read 5).1 ≠ GIOStatus.ERROR) :=
  lm_ssl_read_status 5 (by decide) (by decide)

/-- C10: for a directory at ca_path, _lm_ssl_set_ca returns TRUE exactly when some entry
of the directory is a regular file (stat succeeds, S_ISREG) whose load returned a
positive count; every such regular file is handed to the loader, in directory order,
whatever the earlier loads returned; and when opendir fails nothing is loaded and the
result is FALSE. -/
theorem lm_ssl_set_ca_directory {σ : Type} (ssl : LmSSL σ) (ca_path : String) :
    (∀ entries : List DirEntry,
      ((_lm_ssl_set_ca ssl ca_path (CaTarget.dir (some entries))).1 = true ↔
        ∃ e ∈ entries, e.stat_rc = 0 ∧ e.is_reg = true ∧ e.load_rc > 0) ∧
      (_lm_ssl_set_ca ssl ca_path (CaTarget.dir (some entries))).2.calls = ssl.calls ++
        (entries.filter fun e => decide (e.stat_rc = 0 ∧ e.is_reg = true)).map
          fun e => GnutlsCall.certificate_set_x509_trust_file ca_path (some e.d_name)) ∧
    (_lm_ssl_set_ca ssl ca_path (CaTarget.dir none) = (false, ssl)) := by
  refine ⟨fun entries => ⟨?_, ?_⟩, rfl⟩
  · have h := set_ca_readdir_worked ca_path entries ssl false
    simp only [Bool.false_eq_true, false_or] at h
    rw [← h]
    unfold _lm_ssl_set_ca
    simp only
    split
    · rename_i hf
      simp [hf]
    · rename_i hf
      simp at hf
      simp [hf]
  · have h := set_ca_readdir_calls ca_path entries ssl false
    unfold _lm_ssl_set_ca
    simp only
    split <;> exact h

/-! ## Lemmas on the resolver -/

theorem asyncns_resolver_cleanup_calls (resolver : LmResolver) :
    (asyncns_resolver_cleanup resolver).calls = resolver.calls ++ cleanup_calls resolver.priv := by
  rcases resolver with ⟨⟨w, q, c, ch⟩, ty, host, port, dom, svc, proto, calls⟩
  cases w <;> cases c <;> cases ch <;>
    simp [asyncns_resolver_cleanup, cleanup_calls, called]

theorem asyncns_resolver_cleanup_priv (resolver : LmResolver) :
    (asyncns_resolver_cleanup resolver).priv
      = { watch_resolv := none, resolv_query := none, asyncns_ctx := none,
          resolv_channel := none } := by
  rcases resolver with ⟨⟨w, q, c, ch⟩, ty, host, port, dom, svc, proto, calls⟩
  cases w <;> cases c <;> cases ch <;>
    simp [asyncns_resolver_cleanup, called]

/-- The host completion handler reports first and releases afterwards. -/
theorem asyncns_resolver_done_calls (resolver : LmResolver) (err : Int)
    (ans : Option (List String)) :
    (asyncns_resolver_done resolver err ans).calls = resolver.calls ++
      ResolverCall._lm_resolver_set_result
          (if err ≠ 0 then LmResolverResult.FAILED else LmResolverResult.OK)
          (if err ≠ 0 then none else ans) ::
        cleanup_calls resolver.priv := by
  unfold asyncns_resolver_done
  rw [asyncns_resolver_cleanup_calls]
  by_cases h : err ≠ 0
  · simp [h, _lm_resolver_set_result, called, cleanup_calls]
  · simp [h, _lm_resolver_set_result, called, cleanup_calls]

/-- The service completion handler releases first and reports afterwards, once. -/
theorem asyncns_resolver_srv_done_calls (resolver : LmResolver) (srv_len : Int)
    (srv_ans : List Nat) (parse_srv_response : List Nat → Int → Option (String × Nat)) :
    ∃ result, (asyncns_resolver_srv_done resolver srv_len srv_ans parse_srv_response).calls
      = resolver.calls ++ cleanup_calls resolver.priv ++
        [ResolverCall._lm_resolver_set_result result none] := by
  unfold asyncns_resolver_srv_done
  by_cases hlen : srv_len ≤ 0
  · refine ⟨LmResolverResult.FAILED, ?_⟩
    simp [hlen, _lm_resolver_set_result, called, asyncns_resolver_cleanup_calls, cleanup_calls]
  · cases hp : parse_srv_response srv_ans srv_len with
    | none =>
      refine ⟨LmResolverResult.FAILED, ?_⟩
      simp [hlen, hp, _lm_resolver_set_result, called, asyncns_resolver_cleanup_calls,
        cleanup_calls]
    | some v =>
      refine ⟨LmResolverResult.OK, ?_⟩
      simp [hlen, hp, _lm_resolver_set_result, called, asyncns_resolver_cleanup_calls,
        cleanup_calls]

/-- When asyncns_new yields no context, a lookup of either kind only records the attempt:
no query is submitted and nothing is reported. -/
theorem asyncns_resolver_lookup_of_no_context (resolver : LmResolver) (b : Backend) :
    asyncns_resolver_lookup
        { resolver with priv := { resolver.priv with asyncns_ctx := none } }
        { b with ctx := none }
      = called { resolver with priv := { resolver.priv with asyncns_ctx := none } }
          ResolverCall.asyncns_new := by
  rcases resolver with ⟨⟨w, q, c, ch⟩, ty, host, port, dom, svc, proto, calls⟩
  cases ty <;>
    simp [asyncns_resolver_lookup, asyncns_resolver_lookup_host,
      asyncns_resolver_lookup_service, asyncns_resolver_prep, called]

/-! ## Claims on the resolver -/

/-- C5: on the host resolver queried_host_resolver, whose query completes with err 0 and
one address, asyncns_resolver_done calls _lm_resolver_set_result once and before
the channel 11, the watch 12 and the context 10 are released: the delivery precedes
the cleanup. -/
theorem asyncns_resolver_done_reports_before_cleanup :
    (asyncns_resolver_done queried_host_resolver 0 (some ["192.0.2.1"])).calls
      = queried_host_resolver.calls ++
        [ResolverCall._lm_resolver_set_result LmResolverResult.OK (some ["192.0.2.1"]),
          ResolverCall.g_io_channel_unref 11,
          ResolverCall.g_source_destroy 12,
          ResolverCall.asyncns_free 10] := by
  decide

/-- C6, as stated, fails: right after a cancel the query of queried_host_resolver is
empty, and a second cancel still delivers LM_RESOLVER_RESULT_CANCELLED, so it is not
a no-op. -/
theorem asyncns_resolver_cancel_again_delivers :
    (asyncns_resolver_cancel queried_host_resolver).priv.resolv_query = none ∧
    asyncns_resolver_cancel (asyncns_resolver_cancel queried_host_resolver)
      ≠ asyncns_resolver_cancel queried_host_resolver ∧
    (asyncns_resolver_cancel (asyncns_resolver_cancel queried_host_resolver)).calls
      = (asyncns_resolver_cancel queried_host_resolver).calls ++
        [ResolverCall._lm_resolver_set_result LmResolverResult.CANCELLED none] := by
  decide

/-- C6, amended: when no query is outstanding, asyncns_resolver_cancel changes nothing of
the resolver but its call log and issues no backend cancel; when there is no backend
context either, it makes no call at all and delivers nothing; when a backend context
exists, the one call it makes is the delivery of LM_RESOLVER_RESULT_CANCELLED. -/
theorem asyncns_resolver_cancel_without_query (resolver : LmResolver)
    (h : resolver.priv.resolv_query = none) :
    asyncns_resolver_cancel resolver
      = { resolver with calls := (asyncns_resolver_cancel resolver).calls } ∧
    (resolver.priv.asyncns_ctx = none → asyncns_resolver_cancel resolver = resolver) ∧
    (resolver.priv.asyncns_ctx ≠ none →
      (asyncns_resolver_cancel resolver).calls = resolver.calls ++
        [ResolverCall._lm_resolver_set_result LmResolverResult.CANCELLED none]) := by
  rcases resolver with ⟨⟨w, q, c, ch⟩, ty, host, port, dom, svc, proto, calls⟩
  simp only at h
  subst h
  cases c <;> simp [asyncns_resolver_cancel, _lm_resolver_set_result, called]

/-- C6, amended, on the resolver fresh_host_resolver, which has neither query nor context. -/
theorem asyncns_resolver_cancel_without_query_witness :
    fresh_host_resolver.priv.resolv_query = none ∧
    (asyncns_resolver_cancel fresh_host_resolver
      = { fresh_host_resolver with
          calls := (asyncns_resolver_cancel fresh_host_resolver).calls } ∧
    (fresh_host_resolver.priv.asyncns_ctx = none →
      asyncns_resolver_cancel fresh_host_resolver = fresh_host_resolver) ∧
    (fresh_host_resolver.priv.asyncns_ctx ≠ none →
      (asyncns_resolver_cancel fresh_host_resolver).calls = fresh_host_resolver.calls ++
        [ResolverCall._lm_resolver_set_result LmResolverResult.CANCELLED none])) :=
  ⟨rfl, asyncns_resolver_cancel_without_query fresh_host_resolver rfl⟩

/-- C7: with a backend whose context cannot be created, asyncns_resolver_lookup on the
host resolver and on the service resolver makes the single call asyncns_new and
returns: no query is submitted, and _lm_resolver_set_result is not called, so no
failed result is reported. -/
theorem asyncns_resolver_lookup_reports_nothing_on_prep_failure :
    (asyncns_resolver_lookup fresh_host_resolver failing_backend).calls
      = [ResolverCall.asyncns_new] ∧
    (asyncns_resolver_lookup fresh_host_resolver failing_backend).priv.resolv_query = none ∧
    (asyncns_resolver_lookup fresh_srv_resolver failing_backend).calls
      = [ResolverCall.asyncns_new] ∧
    (asyncns_resolver_lookup fresh_srv_resolver failing_backend).priv.resolv_query = none := by
  decide

/-- C11: asyncns_resolver_srv_done releases the backend resources and then delivers one
result.  When the fetched answer has positive length and the parse yields a server and
a port, the result is LM_RESOLVER_RESULT_OK and host and port are set to them; when
the length is zero or negative, or the parse fails, the result is
LM_RESOLVER_RESULT_FAILED and host and port are left as they were.  Hence OK is
delivered exactly when the length is positive and the parse succeeds. -/
theorem asyncns_resolver_srv_done_result (resolver : LmResolver) (srv_len : Int)
    (srv_ans : List Nat) (parse_srv_response : List Nat → Int → Option (String × Nat)) :
    (∀ new_server new_port,
      0 < srv_len → parse_srv_response srv_ans srv_len = some (new_server, new_port) →
        (asyncns_resolver_srv_done resolver srv_len srv_ans parse_srv_response).calls
          = resolver.calls ++ cleanup_calls resolver.priv ++
            [ResolverCall._lm_resolver_set_result LmResolverResult.OK none] ∧
        (asyncns_resolver_srv_done resolver srv_len srv_ans parse_srv_response).host
          = some new_server ∧
        (asyncns_resolver_srv_done resolver srv_len srv_ans parse_srv_response).port
          = new_port) ∧
    ((srv_len ≤ 0 ∨ parse_srv_response srv_ans srv_len = none) →
        (asyncns_resolver_srv_done resolver srv_len srv_ans parse_srv_response).calls
          = resolver.calls ++ cleanup_calls resolver.priv ++
            [ResolverCall._lm_resolver_set_result LmResolverResult.FAILED none] ∧
        (asyncns_resolver_srv_done resolver srv_len srv_ans parse_srv_response).host
          = resolver.host ∧
        (asyncns_resolver_srv_done resolver srv_len srv_ans parse_srv_response).port
          = resolver.port) ∧
    ((asyncns_resolver_srv_done resolver srv_len srv_ans parse_srv_response).calls
        = resolver.calls ++ cleanup_calls resolver.priv ++
          [ResolverCall._lm_resolver_set_result LmResolverResult.OK none] ↔
      (0 < srv_len ∧ (parse_srv_response srv_ans srv_len).isSome = true)) := by
  rcases resolver with ⟨⟨w, q, c, ch⟩, ty, host, port, dom, svc, proto, calls⟩
  by_cases hlen : srv_len ≤ 0
  · have hnot : ¬ 0 < srv_len := by omega
    refine ⟨fun _ _ h0 _ => absurd h0 hnot, fun _ => ?_, ?_⟩
    · cases w <;> cases c <;> cases ch <;>
        simp [asyncns_resolver_srv_done, hlen, _lm_resolver_set_result, called,
          asyncns_resolver_cleanup, cleanup_calls]
    · cases w <;> cases c <;> cases ch <;>
        simp [asyncns_resolver_srv_done, hlen, hnot, _lm_resolver_set_result, called,
          asyncns_resolver_cleanup, cleanup_calls]
  · have hpos : 0 < srv_len := by omega
    cases hp : parse_srv_response srv_ans srv_len with
    | none =>
      refine ⟨fun _ _ _ h => by simp at h, fun _ => ?_, ?_⟩
      · cases w <;> cases c <;> cases ch <;>
          simp [asyncns_resolver_srv_done, hlen, hp, _lm_resolver_set_result, called,
            asyncns_resolver_cleanup, cleanup_calls]
      · cases w <;> cases c <;> cases ch <;>
          simp [asyncns_resolver_srv_done, hlen, hp, _lm_resolver_set_result, called,
            asyncns_resolver_cleanup, cleanup_calls]
    | some v =>
      rcases v with ⟨srv, prt⟩
      refine ⟨fun a b _ h => ?_, fun h => ?_, ?_⟩
      · simp only [Option.some.injEq, Prod.mk.injEq] at h
        rcases h with ⟨rfl, rfl⟩
        cases w <;> cases c <;> cases ch <;>
          simp [asyncns_resolver_srv_done, hlen, hp, _lm_resolver_set_result, called,
            asyncns_resolver_cleanup, cleanup_calls]
      · rcases h with h | h
        · exact absurd h hlen
        · simp at h
      · cases w <;> cases c <;> cases ch <;>
          simp [asyncns_resolver_srv_done, hlen, hpos, hp, _lm_resolver_set_result, called,
            asyncns_resolver_cleanup, cleanup_calls]

/-! ## Claims on the chain verification step -/

/-- C12, as stated, fails: when the verification code is GNUTLS_E_NO_CERTIFICATE_FOUND and
the callback answers LM_SSL_RESPONSE_CONTINUE, the chain verification step delivers
LM_SSL_STATUS_GENERIC_ERROR as well, between two deliveries of
LM_SSL_STATUS_NO_CERT_FOUND. -/
theorem verify_peers_step_generic_error_on_no_certificate :
    no_certificate_peer.rc = GNUTLS_E_NO_CERTIFICATE_FOUND ∧
    (verify_peers_step (_lm_ssl_new none continue_always ()) no_certificate_peer).2.delivered
      = [(LmSSLStatus.NO_CERT_FOUND, LmSSLResponse.CONTINUE),
         (LmSSLStatus.GENERIC_ERROR, LmSSLResponse.CONTINUE),
         (LmSSLStatus.NO_CERT_FOUND, LmSSLResponse.CONTINUE)] ∧
    (LmSSLStatus.GENERIC_ERROR, LmSSLResponse.CONTINUE) ∈
      (verify_peers_step (_lm_ssl_new none continue_always ())
        no_certificate_peer).2.delivered := by
  decide

/-- The record of the chain verification step, by the verification code and the answers
of the callback. -/
theorem verify_peers_step_record {σ : Type} (ssl : LmSSL σ) (p : PeerChecks) :
    (p.rc = 0 →
      (verify_peers_step { ssl with delivered := [] } p).2.delivered = []) ∧
    (p.rc ≠ 0 → p.rc ≠ GNUTLS_E_NO_CERTIFICATE_FOUND →
      (verify_peers_step { ssl with delivered := [] } p).2.delivered
        = [(LmSSLStatus.GENERIC_ERROR,
            (ssl.base.func ssl.base.func_data LmSSLStatus.GENERIC_ERROR).1)]) ∧
    (p.rc = GNUTLS_E_NO_CERTIFICATE_FOUND →
      ∃ rest, (verify_peers_step { ssl with delivered := [] } p).2.delivered
          = (LmSSLStatus.NO_CERT_FOUND,
              (ssl.base.func ssl.base.func_data LmSSLStatus.NO_CERT_FOUND).1) :: rest ∧
        ((ssl.base.func ssl.base.func_data LmSSLStatus.NO_CERT_FOUND).1
            ≠ LmSSLResponse.CONTINUE → rest = []) ∧
        ((ssl.base.func ssl.base.func_data LmSSLStatus.NO_CERT_FOUND).1
            = LmSSLResponse.CONTINUE →
          ∃ r more, rest = (LmSSLStatus.GENERIC_ERROR, r) :: more ∧
            ∀ y ∈ more, y.1 = LmSSLStatus.NO_CERT_FOUND)) ∧
    ((∃ r, (LmSSLStatus.GENERIC_ERROR, r) ∈
        (verify_peers_step { ssl with delivered := [] } p).2.delivered) ↔
      (p.rc ≠ 0 ∧ (p.rc = GNUTLS_E_NO_CERTIFICATE_FOUND →
        (ssl.base.func ssl.base.func_data LmSSLStatus.NO_CERT_FOUND).1
          = LmSSLResponse.CONTINUE))) := by
  by_cases hnc : p.rc = GNUTLS_E_NO_CERTIFICATE_FOUND
  · have hnz : p.rc ≠ 0 := by rw [hnc]; decide
    have hc0 : ¬ GNUTLS_E_NO_CERTIFICATE_FOUND = 0 := by decide
    cases h1 : (ssl.base.func ssl.base.func_data LmSSLStatus.NO_CERT_FOUND).1 with
    | STOP =>
      refine ⟨fun h => absurd h hnz, fun _ h => absurd hnc h, fun _ => ⟨[], ?_, ?_, ?_⟩, ?_⟩
      · simp [verify_peers_step, andThen, report, base_func, hnc, hc0, h1]
      · intro _; rfl
      · intro h; cases h
      · simp [verify_peers_step, andThen, report, base_func, hnc, hc0, h1]
    | CONTINUE =>
      cases h2 : (ssl.base.func (ssl.base.func ssl.base.func_data
          LmSSLStatus.NO_CERT_FOUND).2 LmSSLStatus.GENERIC_ERROR).1 with
      | STOP =>
        refine ⟨fun h => absurd h hnz, fun _ h => absurd hnc h,
          fun _ => ⟨[(LmSSLStatus.GENERIC_ERROR, LmSSLResponse.STOP)], ?_, ?_, ?_⟩, ?_⟩
        · simp [verify_peers_step, andThen, report, base_func, hnc, hc0, h1, h2]
        · intro h; exact absurd rfl h
        · intro _; exact ⟨LmSSLResponse.STOP, [], rfl, by simp⟩
        · simp [verify_peers_step, andThen, report, base_func, hnc, hc0, h1, h2]
      | CONTINUE =>
        refine ⟨fun h => absurd h hnz, fun _ h => absurd hnc h,
          fun _ => ⟨[(LmSSLStatus.GENERIC_ERROR, LmSSLResponse.CONTINUE),
            (LmSSLStatus.NO_CERT_FOUND,
              (ssl.base.func (ssl.base.func (ssl.base.func ssl.base.func_data
                LmSSLStatus.NO_CERT_FOUND).2 LmSSLStatus.GENERIC_ERROR).2
                LmSSLStatus.NO_CERT_FOUND).1)], ?_, ?_, ?_⟩, ?_⟩
        · simp [verify_peers_step, andThen, report, base_func, hnc, hc0, h1, h2]
        · intro h; exact absurd rfl h
        · intro _; exact ⟨LmSSLResponse.CONTINUE, _, rfl, by simp⟩
        · simp [verify_peers_step, andThen, report, base_func, hnc, hc0, h1, h2]
  · by_cases hz : p.rc = 0
    · have h0c : ¬ (0 : Int) = GNUTLS_E_NO_CERTIFICATE_FOUND := by decide
      refine ⟨fun _ => ?_, fun h => absurd hz h, fun h => absurd h hnc, ?_⟩
      · simp [verify_peers_step, andThen, report, base_func, h0c, hz]
      · simp [verify_peers_step, andThen, report, base_func, h0c, hz]
    · refine ⟨fun h => absurd h hz, fun _ _ => ?_, fun h => absurd h hnc, ?_⟩
      · cases h2 : (ssl.base.func ssl.base.func_data LmSSLStatus.GENERIC_ERROR).1 <;>
          simp [verify_peers_step, andThen, report, base_func, hnc, hz, h2]
      · cases h2 : (ssl.base.func ssl.base.func_data LmSSLStatus.GENERIC_ERROR).1 <;>
          simp [verify_peers_step, andThen, report, base_func, hnc, hz, h2]

/-- The record of ssl_verify_certificate begins with the record of its chain
verification step. -/
theorem ssl_verify_certificate_begins_with_verify_peers_step {σ : Type} (ssl : LmSSL σ)
    (server : String) (p : PeerChecks) :
    ∃ ext, (ssl_verify_certificate ssl server p).2.delivered
      = (verify_peers_step ssl p).2.delivered ++ ext := by
  unfold ssl_verify_certificate
  by_cases hr : (verify_peers_step ssl p).1 = true
  · have hand : ∀ k : LmSSL σ → Bool × LmSSL σ,
        andThen (verify_peers_step ssl p) k = k (verify_peers_step ssl p).2 := by
      intro k; simp [andThen, hr]
    rw [hand]
    have htail : ∀ u : LmSSL σ, StepSpec (fun _ => True) u
        (andThen (report (decide (Nat.land p.status GNUTLS_CERT_INVALID ≠ 0)
              || decide (Nat.land p.status GNUTLS_CERT_REVOKED ≠ 0))
            LmSSLStatus.UNTRUSTED_CERT u) fun ssl =>
          andThen (report (decide (p.expiration_time < p.now_expiration))
            LmSSLStatus.CERT_EXPIRED ssl) fun ssl =>
          andThen (report (decide (p.activation_time > p.now_activation))
            LmSSLStatus.CERT_NOT_ACTIVATED ssl) fun ssl =>
          if p.cert_type = GNUTLS_CRT_X509 then x509_step ssl server p else (true, ssl)) := by
      intro u
      refine andThen_spec _ _ _ _ (report_spec _ _ _ _ trivial) fun s => ?_
      refine andThen_spec _ _ _ _ (report_spec _ _ _ _ trivial) fun s => ?_
      refine andThen_spec _ _ _ _ (report_spec _ _ _ _ trivial) fun s => ?_
      split
      · exact x509_step_spec _ _ _
      · exact ⟨frame_refl s, [], by simp, by simp, Or.inl ⟨rfl, allContinue_nil⟩⟩
    rcases htail (verify_peers_step ssl p).2 with ⟨_, ext, hd, _, _⟩
    exact ⟨ext, hd⟩
  · have hand : ∀ k : LmSSL σ → Bool × LmSSL σ,
        andThen (verify_peers_step ssl p) k = (false, (verify_peers_step ssl p).2) := by
      intro k; simp [andThen, hr]
    rw [hand]
    exact ⟨[], by simp⟩

/-- C12, amended: the chain verification step of ssl_verify_certificate, started with an
empty record, delivers nothing when the verification code is zero; delivers
LM_SSL_STATUS_GENERIC_ERROR and nothing else when the code is non-zero and not
GNUTLS_E_NO_CERTIFICATE_FOUND; and when the code is GNUTLS_E_NO_CERTIFICATE_FOUND it
delivers LM_SSL_STATUS_NO_CERT_FOUND first and, if that is answered
LM_SSL_RESPONSE_CONTINUE, LM_SSL_STATUS_GENERIC_ERROR next (followed by nothing but
LM_SSL_STATUS_NO_CERT_FOUND), otherwise nothing more.  Hence
LM_SSL_STATUS_GENERIC_ERROR is delivered exactly when the code is non-zero and the
callback did not stop at a LM_SSL_STATUS_NO_CERT_FOUND delivered before it.  The
record of ssl_verify_certificate begins with the record of this step. -/
theorem verify_peers_step_delivers {σ : Type} (ssl : LmSSL σ) (p : PeerChecks) :
    (p.rc = 0 →
      (verify_peers_step { ssl with delivered := [] } p).2.delivered = []) ∧
    (p.rc ≠ 0 → p.rc ≠ GNUTLS_E_NO_CERTIFICATE_FOUND →
      (verify_peers_step { ssl with delivered := [] } p).2.delivered
        = [(LmSSLStatus.GENERIC_ERROR,
            (ssl.base.func ssl.base.func_data LmSSLStatus.GENERIC_ERROR).1)]) ∧
    (p.rc = GNUTLS_E_NO_CERTIFICATE_FOUND →
      ∃ rest, (verify_peers_step { ssl with delivered := [] } p).2.delivered
          = (LmSSLStatus.NO_CERT_FOUND,
              (ssl.base.func ssl.base.func_data LmSSLStatus.NO_CERT_FOUND).1) :: rest ∧
        ((ssl.base.func ssl.base.func_data LmSSLStatus.NO_CERT_FOUND).1
            ≠ LmSSLResponse.CONTINUE → rest = []) ∧
        ((ssl.base.func ssl.base.func_data LmSSLStatus.NO_CERT_FOUND).1
            = LmSSLResponse.CONTINUE →
          ∃ r more, rest = (LmSSLStatus.GENERIC_ERROR, r) :: more ∧
            ∀ y ∈ more, y.1 = LmSSLStatus.NO_CERT_FOUND)) ∧
    ((∃ r, (LmSSLStatus.GENERIC_ERROR, r) ∈
        (verify_peers_step { ssl with delivered := [] } p).2.delivered) ↔
      (p.rc ≠ 0 ∧ (p.rc = GNUTLS_E_NO_CERTIFICATE_FOUND →
        (ssl.base.func ssl.base.func_data LmSSLStatus.NO_CERT_FOUND).1
          = LmSSLResponse.CONTINUE))) ∧
    (∀ server : String, ∃ ext,
      (ssl_verify_certificate { ssl with delivered := [] } server p).2.delivered
        = (verify_peers_step { ssl with delivered := [] } p).2.delivered ++ ext) :=
  ⟨(verify_peers_step_record ssl p).1, (verify_peers_step_record ssl p).2.1,
    (verify_peers_step_record ssl p).2.2.1, (verify_peers_step_record ssl p).2.2.2,
    fun server => ssl_verify_certificate_begins_with_verify_peers_step _ server p⟩

/-! ## Lemmas on the calls made up to the end of _lm_ssl_begin -/

theorem lm_ssl_set_ca_calls {σ : Type} (ssl : LmSSL σ) (ca_path : String)
    (target : CaTarget) :
    ∃ ext, (_lm_ssl_set_ca ssl ca_path target).2.calls = ssl.calls ++ ext ∧
      ∀ c ∈ ext, ¬ IsRelease c := by
  cases target with
  | missing => exact ⟨[], by simp [_lm_ssl_set_ca], by simp⟩
  | dir opened =>
    cases opened with
    | none => exact ⟨[], by simp [_lm_ssl_set_ca], by simp⟩
    | some entries =>
      refine ⟨(entries.filter fun e => decide (e.stat_rc = 0 ∧ e.is_reg = true)).map
          fun e => GnutlsCall.certificate_set_x509_trust_file ca_path (some e.d_name),
        ?_, ?_⟩
      · have h := set_ca_readdir_calls ca_path entries ssl false
        unfold _lm_ssl_set_ca
        simp only
        split <;> exact h
      · intro c hc
        simp only [List.mem_map] at hc
        rcases hc with ⟨e, _, rfl⟩
        simp [IsRelease]
  | reg load_rc =>
    refine ⟨[GnutlsCall.certificate_set_x509_trust_file ca_path none], ?_, ?_⟩
    · unfold _lm_ssl_set_ca
      simp only
      split <;> rfl
    · intro c hc
      simp at hc
      subst hc
      simp [IsRelease]
  | other => exact ⟨[], by simp [_lm_ssl_set_ca], by simp⟩

theorem begin_setup_calls {σ : Type} (ssl : LmSSL σ) (fd : Int) (target : CaTarget) :
    ∃ ext, (begin_setup ssl fd target).calls = ssl.calls ++ GnutlsCall.init :: ext ∧
      ∀ c ∈ ext, ¬ IsRelease c := by
  unfold begin_setup
  cases hc : ssl.base.cipher_list with
  | none =>
    cases hp : ssl.base.ca_path with
    | none =>
      refine ⟨[GnutlsCall.priority_set_direct "NORMAL",
        GnutlsCall.certificate_set_x509_system_trust, GnutlsCall.credentials_set,
        GnutlsCall.transport_set_ptr fd], ?_, ?_⟩
      · simp [gnutls, hc, hp]
      · intro c hmem
        simp at hmem
        rcases hmem with rfl | rfl | rfl | rfl <;> simp [IsRelease]
    | some path =>
      rcases lm_ssl_set_ca_calls
        (gnutls (gnutls ssl .init) (.priority_set_direct "NORMAL")) path target with
        ⟨ext, hext, hno⟩
      refine ⟨GnutlsCall.priority_set_direct "NORMAL" :: ext ++
        [GnutlsCall.credentials_set, GnutlsCall.transport_set_ptr fd], ?_, ?_⟩
      · simp only [gnutls, hc, hp] at hext ⊢
        rw [hext]
        simp
      · intro c hmem
        simp at hmem
        rcases hmem with rfl | h | rfl | rfl
        · simp [IsRelease]
        · exact hno c h
        · simp [IsRelease]
        · simp [IsRelease]
  | some cl =>
    cases hp : ssl.base.ca_path with
    | none =>
      refine ⟨[GnutlsCall.priority_set_direct cl,
        GnutlsCall.certificate_set_x509_system_trust, GnutlsCall.credentials_set,
        GnutlsCall.transport_set_ptr fd], ?_, ?_⟩
      · simp [gnutls, hc, hp]
      · intro c hmem
        simp at hmem
        rcases hmem with rfl | rfl | rfl | rfl <;> simp [IsRelease]
    | some path =>
      rcases lm_ssl_set_ca_calls
        (gnutls (gnutls ssl .init) (.priority_set_direct cl)) path target with
        ⟨ext, hext, hno⟩
      refine ⟨GnutlsCall.priority_set_direct cl :: ext ++
        [GnutlsCall.credentials_set, GnutlsCall.transport_set_ptr fd], ?_, ?_⟩
      · simp only [gnutls, hc, hp] at hext ⊢
        rw [hext]
        simp
      · intro c hmem
        simp at hmem
        rcases hmem with rfl | h | rfl | rfl
        · simp [IsRelease]
        · exact hno c h
        · simp [IsRelease]
        · simp [IsRelease]

theorem handshake_loop_some {σ : Type} (handshakes : List Int) :
    ∀ (ssl s : LmSSL σ) (ret : Int), handshake_loop handshakes ssl = some (ret, s) →
      s.base = ssl.base ∧ s.started = ssl.started ∧ s.delivered = ssl.delivered ∧
      ∃ k, s.calls = ssl.calls ++ List.replicate k GnutlsCall.handshake := by
  induction handshakes with
  | nil => intro ssl s ret h; simp [handshake_loop] at h
  | cons code rest ih =>
    intro ssl s ret h
    unfold handshake_loop at h
    simp only at h
    split at h
    · rcases ih _ _ _ h with ⟨hb, hst, hd, k, hk⟩
      refine ⟨hb, hst, hd, k + 1, ?_⟩
      rw [hk]
      simp [gnutls, List.replicate_succ]
    · simp only [Option.some.injEq, Prod.mk.injEq] at h
      rcases h with ⟨_, rfl⟩
      exact ⟨rfl, rfl, rfl, 1, by simp [gnutls]⟩

/-- The three ways _lm_ssl_begin ends once the handshake loop has ended. -/
theorem lm_ssl_begin_cases {σ : Type} (ssl : LmSSL σ) (fd : Int) (server : String)
    (target : CaTarget) (handshakes : List Int) (p : PeerChecks) (r : BeginResult σ)
    (h : _lm_ssl_begin ssl fd server target handshakes p = some r) :
    ∃ ret s, handshake_loop handshakes (begin_setup ssl fd target) = some (ret, s) ∧
      ((ret < 0 ∧ r = ⟨false, some (BeginErrmsg.handshake_failed, ret), s⟩) ∨
       (0 ≤ ret ∧ (ssl_verify_certificate s server p).1 = false ∧
          r = ⟨false, some (BeginErrmsg.authentication_error, ret),
                (ssl_verify_certificate s server p).2⟩) ∨
       (0 ≤ ret ∧ (ssl_verify_certificate s server p).1 = true ∧
          r = ⟨true, none, { (ssl_verify_certificate s server p).2 with started := true }⟩)) := by
  unfold _lm_ssl_begin at h
  simp only at h
  cases hl : handshake_loop handshakes (begin_setup ssl fd target) with
  | none => simp [hl] at h
  | some v =>
    rcases v with ⟨ret, s⟩
    refine ⟨ret, s, rfl, ?_⟩
    simp only [hl] at h
    by_cases hneg : ret < 0
    · have hge : ¬ ret ≥ 0 := by omega
      left
      simp [hneg, hge] at h
      exact ⟨hneg, h.symm⟩
    · have hge : ret ≥ 0 := by omega
      right
      by_cases hv : (ssl_verify_certificate s server p).1 = true
      · right
        simp [hneg, hge, hv] at h
        exact ⟨hge, hv, h.symm⟩
      · have hv2 : (ssl_verify_certificate s server p).1 = false := by simpa using hv
        left
        simp [hneg, hge, hv2] at h
        exact ⟨hge, hv2, h.symm⟩

/-- After a failed _lm_ssl_begin on a session that was not started, _lm_ssl_close
returns at its guard and makes no call. -/
theorem lm_ssl_close_after_failed_begin {σ : Type} (ssl : LmSSL σ) (fd : Int)
    (server : String) (target : CaTarget) (handshakes : List Int) (p : PeerChecks)
    (r : BeginResult σ)
    (hb : _lm_ssl_begin ssl fd server target handshakes p = some r)
    (hfail : r.ok = false) (hns : ssl.started = false) :
    _lm_ssl_close r.ssl = r.ssl := by
  have hsetup := begin_setup_frame ssl fd target
  rcases lm_ssl_begin_cases ssl fd server target handshakes p r hb with
    ⟨ret, s, hl, h⟩
  rcases handshake_loop_some handshakes _ _ _ hl with ⟨_, hst, _, _⟩
  have hs : s.started = false := by rw [hst, hsetup.2.1, hns]
  rcases h with ⟨_, rfl⟩ | ⟨_, _, rfl⟩ | ⟨_, _, rfl⟩
  · simp [_lm_ssl_close, hs]
  · have hf := (ssl_verify_certificate_spec s server p).1
    have hv : (ssl_verify_certificate s server p).2.started = false := by
      rw [hf.1, hs]
    simp [_lm_ssl_close, hv]
  · simp at hfail

/-! ## Claims on the release of resources -/

/-- C13, as stated, fails: on a session created and initialized, begun with a handshake
that fails with code -10, and on one begun with a successful handshake whose peer is
rejected by the verification, the following _lm_ssl_close makes no call: the log ends
with the handshake, and neither the handshake context nor the credentials nor the
global state is released. -/
theorem lm_ssl_close_after_failed_begin_releases_nothing :
    (∃ r, _lm_ssl_begin ( _lm_ssl_initialize (_lm_ssl_new none continue_always ())) 3
        "example.org" CaTarget.other [-10] good_peer = some r ∧
      r.ok = false ∧ r.error = some (BeginErrmsg.handshake_failed, -10) ∧
      (_lm_ssl_close r.ssl).calls
        = [GnutlsCall.global_init, GnutlsCall.certificate_allocate_credentials,
            GnutlsCall.init, GnutlsCall.priority_set_direct "NORMAL",
            GnutlsCall.certificate_set_x509_system_trust, GnutlsCall.credentials_set,
            GnutlsCall.transport_set_ptr 3, GnutlsCall.handshake]) ∧
    (∃ r, _lm_ssl_begin ( _lm_ssl_initialize (_lm_ssl_new none stop_always ())) 3
        "example.org" CaTarget.other [0] expired_peer = some r ∧
      r.ok = false ∧ r.error = some (BeginErrmsg.authentication_error, 0) ∧
      (_lm_ssl_close r.ssl).calls
        = [GnutlsCall.global_init, GnutlsCall.certificate_allocate_credentials,
            GnutlsCall.init, GnutlsCall.priority_set_direct "NORMAL",
            GnutlsCall.certificate_set_x509_system_trust, GnutlsCall.credentials_set,
            GnutlsCall.transport_set_ptr 3, GnutlsCall.handshake]) :=
  ⟨⟨_, rfl, rfl, rfl, rfl⟩, ⟨_, rfl, rfl, rfl, rfl⟩⟩

/-- C13, amended: for every session that was initialized and on which _lm_ssl_begin
succeeded, the following _lm_ssl_close makes exactly the three calls gnutls_deinit,
gnutls_certificate_free_credentials, gnutls_global_deinit, in that order; none of them
was made before, and they mirror the acquisitions gnutls_global_init,
gnutls_certificate_allocate_credentials, gnutls_init with which the log begins. -/
theorem lm_ssl_close_after_successful_begin {σ : Type} (ssl0 : LmSSL σ) (fd : Int)
    (server : String) (target : CaTarget) (handshakes : List Int) (p : PeerChecks)
    (r : BeginResult σ)
    (hb : _lm_ssl_begin ( _lm_ssl_initialize { ssl0 with calls := [] }) fd server target
        handshakes p = some r)
    (hok : r.ok = true) :
    (_lm_ssl_close r.ssl).calls = r.ssl.calls ++
      [GnutlsCall.deinit, GnutlsCall.certificate_free_credentials,
        GnutlsCall.global_deinit] ∧
    (∀ c ∈ r.ssl.calls, ¬ IsRelease c) ∧
    (∃ mid, r.ssl.calls = GnutlsCall.global_init ::
      GnutlsCall.certificate_allocate_credentials :: GnutlsCall.init :: mid) := by
  rcases lm_ssl_begin_cases _ fd server target handshakes p r hb with ⟨ret, s, hl, h⟩
  rcases handshake_loop_some handshakes _ _ _ hl with ⟨_, _, _, k, hk⟩
  rcases begin_setup_calls ( _lm_ssl_initialize { ssl0 with calls := [] }) fd target with
    ⟨ext, hext, hno⟩
  have hf := (ssl_verify_certificate_spec s server p).1
  have hinit : ( _lm_ssl_initialize { ssl0 with calls := [] }).calls
      = [GnutlsCall.global_init, GnutlsCall.certificate_allocate_credentials] := by
    simp [gnutls, _lm_ssl_initialize]
  rcases h with ⟨_, rfl⟩ | ⟨_, _, rfl⟩ | ⟨_, _, rfl⟩
  · simp at hok
  · simp at hok
  · have hcalls : (ssl_verify_certificate s server p).2.calls
        = GnutlsCall.global_init :: GnutlsCall.certificate_allocate_credentials ::
          GnutlsCall.init :: (ext ++ List.replicate k GnutlsCall.handshake) := by
      rw [hf.2.1, hk, hext, hinit]
      simp
    refine ⟨?_, ?_, ?_⟩
    · simp [_lm_ssl_close, gnutls]
    · intro c hc
      simp only at hc
      rw [hcalls] at hc
      simp only [List.mem_cons, List.mem_append, List.mem_replicate] at hc
      rcases hc with rfl | rfl | rfl | h | ⟨_, rfl⟩
      · simp [IsRelease]
      · simp [IsRelease]
      · simp [IsRelease]
      · exact hno c h
      · simp [IsRelease]
    · exact ⟨_, hcalls⟩

/-- C13, amended, on the session begun_session. -/
theorem lm_ssl_close_after_successful_begin_witness :
    ∃ r, _lm_ssl_begin ( _lm_ssl_initialize { _lm_ssl_new none continue_always () with
          calls := [] }) 3 "example.org" CaTarget.other [0] good_peer = some r ∧
      r.ok = true ∧
      ((_lm_ssl_close r.ssl).calls = r.ssl.calls ++
        [GnutlsCall.deinit, GnutlsCall.certificate_free_credentials,
          GnutlsCall.global_deinit] ∧
      (∀ c ∈ r.ssl.calls, ¬ IsRelease c) ∧
      (∃ mid, r.ssl.calls = GnutlsCall.global_init ::
        GnutlsCall.certificate_allocate_credentials :: GnutlsCall.init :: mid)) :=
  ⟨_, rfl, rfl,
    lm_ssl_close_after_successful_begin (_lm_ssl_new none continue_always ()) 3
      "example.org" CaTarget.other [0] good_peer _ rfl rfl⟩

end Loudmouth
